import Mathlib

/-!
# Verification of `majestic-sentry-to-slack`

Shallow embedding of `api/_sentrySlack.js` (and the two thin request handlers
`api/sentry-backend.js`, `api/sentry-frontend.js`) together with proofs about
the claims of the specification.

Modelling conventions:
* JavaScript values reachable from a parsed JSON body are modelled by `JVal`.
  `JVal.undef` models JS `undefined` (absent properties); JSON numbers are
  modelled as integers (no claim exercises fractional values).
* Code that can throw a `TypeError` (property access on `null`/`undefined`,
  calling `.toLowerCase()` on a non-string) is modelled in the `Option` monad:
  `none` means the original JavaScript raised.
* `Date.parse` / `new Date(string)` parsing is implementation-defined in JS,
  so it is a parameter `dp : String → Option Int` (result in epoch
  milliseconds, `none` = `NaN`).  `Date.prototype.toISOString` is fully
  specified and is embedded concretely (`epochToISO`).
* String indexing / `.length` use Unicode code points where JS uses UTF-16
  units; no claim distinguishes them.
-/

/-- JavaScript values as reachable from a JSON body: `undef` models the JS
`undefined` value (absent object properties). -/
inductive JVal where
  | undef : JVal
  | null : JVal
  | bool : Bool → JVal
  | num : Int → JVal
  | str : String → JVal
  | arr : List JVal → JVal
  | obj : List (String × JVal) → JVal

/-- JavaScript truthiness (`Boolean(v)`): `undefined`, `null`, `false`, `0`
and `""` are falsy, everything else (objects, arrays, other primitives) is
truthy. -/
def truthy : JVal → Bool
  | .undef => false
  | .null => false
  | .bool b => b
  | .num n => n != 0
  | .str s => s != ""
  | .arr _ => true
  | .obj _ => true

/-- Property read `v.k` for a receiver that is known not to be
`null`/`undefined` (JS would throw there; every use below is on such a
receiver).  Missing object properties and property reads on primitives or
arrays yield `undefined`. -/
def getProp : JVal → String → JVal
  | .obj kvs, k => (kvs.lookup k).getD (.undef)
  | _, _ => (.undef)

/-- Optional chaining `v?.k`: `undefined` when the receiver is nullish,
otherwise a plain property read. -/
def optChain (v : JVal) (k : String) : JVal :=
  match v with
  | .undef => (.undef)
  | .null => (.undef)
  | _ => getProp v k

/-- Nullish coalescing `a ?? b`. -/
def jsNullish (a b : JVal) : JVal :=
  match a with
  | .undef => b
  | .null => b
  | _ => a

/-- Logical or `a || b` on values (both sides already evaluated). -/
def jsOrV (a b : JVal) : JVal :=
  if truthy a then a else b

/-- Logical or `a || b` where evaluating `b` may throw: the right-hand side
is only consulted when `a` is falsy (JS short-circuiting). -/
def jsOrOpt (a : JVal) (b : Option JVal) : Option JVal :=
  if truthy a then some a else b

/-- Index read `v[i]` for a non-nullish receiver: array element, single
character of a string, `undefined` otherwise. -/
def jsIndex (v : JVal) (i : Nat) : JVal :=
  match v with
  | .arr xs => xs.getD i (.undef)
  | .str s => if i < s.toList.length then .str (String.mk [s.toList.getD i ' ']) else (.undef)
  | .obj kvs => (kvs.lookup (toString i)).getD (.undef)
  | _ => (.undef)

/-- Strict equality `v === k` against a string literal `k`.  Non-strings
(including objects, compared by reference in JS) are never equal to a string
literal. -/
def eqStr (v : JVal) (k : String) : Bool :=
  match v with
  | .str s => s == k
  | _ => false

mutual

/-- JS string coercion `String(v)` (template literals).  Array elements that
are `null`/`undefined` render as the empty string inside `Array.prototype.join`. -/
def jsToString : JVal → String
  | .undef => "undefined"
  | .null => "null"
  | .bool true => "true"
  | .bool false => "false"
  | .num n => toString n
  | .str s => s
  | .arr xs => String.intercalate "," (jsToStringList xs)
  | .obj _ => "[object Object]"

/-- Stringification of array elements for `Array.prototype.toString`. -/
def jsToStringList : List JVal → List String
  | [] => []
  | .null :: vs => "" :: jsToStringList vs
  | .undef :: vs => "" :: jsToStringList vs
  | v :: vs => jsToString v :: jsToStringList vs

end

/-- ASCII lower-casing of one character (the level strings the code compares
are ASCII; kernel-reducible unlike the library's Unicode-aware version). -/
def charToLower (c : Char) : Char :=
  if 'A' ≤ c ∧ c ≤ 'Z' then Char.ofNat (c.toNat + 32) else c

/-- ASCII upper-casing of one character. -/
def charToUpper (c : Char) : Char :=
  if 'a' ≤ c ∧ c ≤ 'z' then Char.ofNat (c.toNat - 32) else c

/-- Embeds `s.toLowerCase()` (ASCII). -/
def strToLower (s : String) : String :=
  String.mk (s.toList.map charToLower)

/-- Embeds `s.toUpperCase()` (ASCII). -/
def strToUpper (s : String) : String :=
  String.mk (s.toList.map charToUpper)

/-- Embeds `parseInt(s, 10)`: skip leading whitespace, optional sign, then the
longest digit prefix; `none` models `NaN` (no digits). -/
def jsParseInt (s : String) : Option Int :=
  let cs := s.toList.dropWhile fun c => c == ' ' || c == '\t' || c == '\n' || c == '\r'
  let (sign, cs2) : Int × List Char :=
    match cs with
    | '-' :: t => (-1, t)
    | '+' :: t => (1, t)
    | _ => (1, cs)
  let ds := cs2.takeWhile Char.isDigit
  if ds.isEmpty then none
  else some (sign * (ds.foldl (fun a c => a * 10 + ((c.toNat : Int) - 48)) (0 : Int)))

/-- String-to-number coercion (trimmed, optionally-signed decimal integers;
the only numeric shapes the claims exercise), `none` modelling `NaN`. -/
def numFromString (s : String) : Option Int :=
  let cs := s.toList.dropWhile fun c => c == ' ' || c == '\t' || c == '\n' || c == '\r'
  let cs := (cs.reverse.dropWhile fun c => c == ' ' || c == '\t' || c == '\n' || c == '\r').reverse
  if cs.isEmpty then some 0
  else
    let (sign, cs2) : Int × List Char :=
      match cs with
      | '-' :: t => (-1, t)
      | '+' :: t => (1, t)
      | _ => (1, cs)
    if cs2.isEmpty || !cs2.all Char.isDigit then none
    else some (sign * (cs2.foldl (fun a c => a * 10 + ((c.toNat : Int) - 48)) (0 : Int)))

/-- Embeds `Number(v)` coercion, `none` modelling `NaN`.  Arrays coerce through
their string rendering, objects to `NaN`. -/
def jsToNumber (v : JVal) : Option Int :=
  match v with
  | .undef => none
  | .null => some 0
  | .bool b => some (if b then 1 else 0)
  | .num n => some n
  | .str s => numFromString s
  | .arr xs => numFromString (jsToString (.arr xs))
  | .obj _ => none

/-- Rendering of a number that may be `NaN` inside a template literal. -/
def numDisplay : Option Int → String
  | some n => toString n
  | none => "NaN"

-- ---------------------------------------------------------------------------
-- Dates: `new Date(ms).toISOString()` and the `Date.parse` parameter
-- ---------------------------------------------------------------------------

/-- Proleptic Gregorian civil date from days since 1970-01-01
(Howard Hinnant's `civil_from_days`). -/
def civilFromDays (z0 : Int) : Int × Nat × Nat :=
  let z := z0 + 719468
  let era := Int.fdiv z 146097
  let doe := z - era * 146097
  let yoe := Int.fdiv (doe - Int.fdiv doe 1460 + Int.fdiv doe 36524 - Int.fdiv doe 146096) 365
  let y := yoe + era * 400
  let doy := doe - (365 * yoe + Int.fdiv yoe 4 - Int.fdiv yoe 100)
  let mp := Int.fdiv (5 * doy + 2) 153
  let d := doy - Int.fdiv (153 * mp + 2) 5 + 1
  let m := mp + (if mp < 10 then 3 else -9)
  (y + (if m ≤ 2 then 1 else 0), m.toNat, d.toNat)

/-- Left-pad the decimal rendering of `n` with zeros to width `w`. -/
def padNum (w : Nat) (n : Nat) : String :=
  let s := toString n
  if s.length < w then String.mk (List.replicate (w - s.length) '0') ++ s else s

/-- Year rendering of `toISOString`: four digits for 0..9999, otherwise the
expanded six-digit form with an explicit sign. -/
def isoYear (y : Int) : String :=
  if 0 ≤ y ∧ y ≤ 9999 then padNum 4 y.toNat
  else if y < 0 then "-" ++ padNum 6 (-y).toNat
  else "+" ++ padNum 6 y.toNat

/-- The string produced by `new Date(ms).toISOString()` for an in-range
`ms` (total helper; the range check lives in `epochToISO`). -/
def isoRender (ms : Int) : String :=
  let days := Int.fdiv ms 86400000
  let rem := (Int.emod ms 86400000).toNat
  let hh := rem / 3600000
  let mi := rem % 3600000 / 60000
  let ss := rem % 60000 / 1000
  let mmm := rem % 1000
  let ymd := civilFromDays days
  isoYear ymd.1 ++ "-" ++ padNum 2 ymd.2.1 ++ "-" ++ padNum 2 ymd.2.2 ++ "T" ++
    padNum 2 hh ++ ":" ++ padNum 2 mi ++ ":" ++ padNum 2 ss ++ "." ++ padNum 3 mmm ++ "Z"

/-- Embeds `new Date(ms).toISOString()`: `none` models the `RangeError` thrown for
times farther than 8.64e15 ms from the epoch (an invalid `Date`). -/
def epochToISO (ms : Int) : Option String :=
  if ms.natAbs ≤ 8640000000000000 then some (isoRender ms) else none

/-- A `Date.parse` model is valid when every successfully parsed time is
within the representable `Date` range (as every real engine guarantees). -/
def DateParseOk (dp : String → Option Int) : Prop :=
  ∀ s ms, dp s = some ms → ms.natAbs ≤ 8640000000000000

/-- The trivial `Date.parse` model: a platform that parses no date string.
Used to instantiate witnesses. -/
def dpNone : String → Option Int := fun _ => none

-- ---------------------------------------------------------------------------
-- The Slack message structure (Block Kit output of the formatters)
-- ---------------------------------------------------------------------------

/-- One Slack Block Kit block as built by the formatters: a `section` with
mrkdwn `text`, a `section` with a `fields` list (each field's mrkdwn text), a
`context` block with one mrkdwn element, an `actions` block of
(label, url) buttons, or a `divider`. -/
inductive Block where
  | sectionText : String → Block
  | sectionFields : List String → Block
  | context : String → Block
  | actions : List (String × String) → Block
  | divider : Block
deriving DecidableEq

/-- The chat message returned by the formatters: plain-text fallback plus
blocks. -/
structure SlackMessage where
  text : String
  blocks : List Block
deriving DecidableEq

/-- Recognizer for divider blocks. -/
def isDivider : Block → Bool
  | .divider => true
  | _ => false

/-- Number of divider blocks in a block list. -/
def dividerCount (bs : List Block) : Nat :=
  bs.countP isDivider

/-- The mrkdwn text of one entry of a `fields` grid: every push in the source
has the shape `*Label:*\n<value>`. -/
def fieldEntry (label value : String) : String :=
  "*" ++ label ++ ":*" ++ "\n" ++ value

-- ---------------------------------------------------------------------------
-- Sender: `postToSlack` (lines 177-202)
-- ---------------------------------------------------------------------------

/-- One scripted HTTP response of the Slack endpoint: status code, the
`retry-after` header (`none` = header absent, i.e. `headers.get` returned
`null`), the parsed JSON body (`resp.json()`, already `{}` if parsing
failed), and the HTTP status text. -/
structure HttpResp where
  status : Nat
  retryAfter : Option String
  body : JVal
  statusText : String

/-- How a `postToSlack` invocation ends. -/
inductive PostResult where
  | ok : JVal → PostResult
  | err : String → PostResult
  | typeError : PostResult
  | pending : PostResult

/-- Result of running `postToSlack` against a response script, together with
the number of network calls issued and the millisecond durations passed to
`setTimeout`, in order. -/
structure PostOutcome where
  result : PostResult
  calls : Nat
  sleeps : List Int

/-- The string actually handed to `parseInt`:
`resp.headers.get("retry-after") || "1"` (a missing header is `null`, and an
empty header is falsy; both fall back to `"1"`). -/
def raStr (r : HttpResp) : String :=
  match r.retryAfter with
  | some s => if s ≠ "" then s else "1"
  | none => "1"

/-- The retry delay in whole seconds:
`Number.isFinite(retryAfter) ? retryAfter : 1` after `parseInt`. -/
def retrySecs (r : HttpResp) : Int :=
  match jsParseInt (raStr r) with
  | some n => n
  | none => 1

/-- The millisecond duration passed to `setTimeout` on a 429 response. -/
def retryDelayMs (r : HttpResp) : Int :=
  retrySecs r * 1000

/-- The message of the error thrown on a non-ok Slack reply:
`data.error || resp.statusText`, coerced into the template literal. -/
def slackErrReason (r : HttpResp) : String :=
  let e := getProp r.body "error"
  if truthy e then jsToString e else r.statusText

/-- Embeds `postToSlack(channel, payload)` (lines 177-202), run against a scripted
list of responses, one per `fetch`.  `token` models
`process.env.SLACK_APP_AUTH_TOKEN` (a string, or `undef` when unset).  On a
429 it sleeps and recurses into itself with the rest of the script; an
exhausted script models a still-pending `fetch` (`pending`).  A JSON body of
`null` makes `data.ok` throw a `TypeError`, mirrored by `typeError`. -/
def postToSlack (token channel : JVal) (payload : SlackMessage) :
    List HttpResp → PostOutcome
  | [] =>
    if !truthy token then ⟨.err "Missing SLACK_APP_AUTH_TOKEN", 0, []⟩
    else if !truthy channel then ⟨.err "Missing Slack channel id", 0, []⟩
    else ⟨.pending, 1, []⟩
  | r :: rest =>
    if !truthy token then ⟨.err "Missing SLACK_APP_AUTH_TOKEN", 0, []⟩
    else if !truthy channel then ⟨.err "Missing Slack channel id", 0, []⟩
    else if r.status == 429 then
      let o := postToSlack token channel payload rest
      ⟨o.result, o.calls + 1, retryDelayMs r :: o.sleeps⟩
    else
      match r.body with
      | .null => ⟨.typeError, 1, []⟩
      | .undef => ⟨.typeError, 1, []⟩
      | data =>
        if !truthy (getProp data "ok") then
          ⟨.err ("Slack API error: " ++ slackErrReason r), 1, []⟩
        else ⟨.ok data, 1, []⟩

-- ---------------------------------------------------------------------------
-- Method guard and request handlers
-- ---------------------------------------------------------------------------

/-- An inbound HTTP request as the handlers see it. -/
structure Req where
  method : String
  body : JVal

/-- Observable outcome of one handler invocation: the response written
(status, optional `Allow` header, JSON body) plus whether the formatter ran
and how many Slack network calls were issued. -/
structure HandlerOutcome where
  status : Nat
  allow : Option String
  resBody : JVal
  formatterCalled : Bool
  slackCalls : Nat

/-- Embeds `methodGuard(req, res)` (lines 205-212): for a non-POST request it writes
the 405 response (with `Allow: POST`) and reports `false`; the outcome it
wrote is returned here, `none` meaning the guard passed. -/
def methodGuard (req : Req) : Option HandlerOutcome :=
  if req.method ≠ "POST" then
    some ⟨405, some "POST", .obj [("error", .str "Method not allowed")], false, 0⟩
  else none

-- ---------------------------------------------------------------------------
-- Formatter helpers (lines 17-66)
-- ---------------------------------------------------------------------------

/-- The `Object.prototype` members reachable by bracket access on an object
literal, each paired with the string its (truthy) value renders to inside a
template literal (V8's native-function form, V8 being the deploy target's
engine; `__proto__` is the prototype object itself, rendering
`[object Object]`). -/
def protoProps : List (String × String) :=
  [("constructor", "function Object() \x7b [native code] \x7d"),
   ("hasOwnProperty", "function hasOwnProperty() \x7b [native code] \x7d"),
   ("isPrototypeOf", "function isPrototypeOf() \x7b [native code] \x7d"),
   ("propertyIsEnumerable", "function propertyIsEnumerable() \x7b [native code] \x7d"),
   ("toLocaleString", "function toLocaleString() \x7b [native code] \x7d"),
   ("toString", "function toString() \x7b [native code] \x7d"),
   ("valueOf", "function valueOf() \x7b [native code] \x7d"),
   ("__defineGetter__", "function __defineGetter__() \x7b [native code] \x7d"),
   ("__defineSetter__", "function __defineSetter__() \x7b [native code] \x7d"),
   ("__lookupGetter__", "function __lookupGetter__() \x7b [native code] \x7d"),
   ("__lookupSetter__", "function __lookupSetter__() \x7b [native code] \x7d"),
   ("__proto__", "[object Object]")]

/-- The `LEVEL_EMOJI` table (lines 17-23). -/
def LEVEL_EMOJI : List (String × String) :=
  [("fatal", "🔥"), ("error", "🚨"), ("warning", "⚠️"), ("info", "ℹ️"), ("debug", "🐞")]

/-- Embeds `LEVEL_EMOJI[level] || "🚨"` (line 73): bracket access on an
object literal also reaches the inherited `Object.prototype` members, whose
values are truthy, so for keys like `"constructor"` the `||` default is not
taken and the inherited value (engine-rendered here in V8 form, the deploy
target's engine) flows into the template literal instead. -/
def levelEmoji1 (level : String) : String :=
  match LEVEL_EMOJI.lookup level with
  | some e => e
  | none =>
    match protoProps.lookup level with
    | some f => f
    | none => "🚨"

/-- Recognizer for arrays (`Array.isArray`). -/
def isArrB : JVal → Bool
  | .arr _ => true
  | _ => false

/-- Embeds `getTag(tags, key)` (lines 26-33): find a `[key, value]` pair; the
`Array.isArray(pair)` guard skips non-array entries, and the `try/catch`
absorbs non-array `tags` receivers, yielding `undefined`. -/
def getTag (tags : JVal) (key : String) : JVal :=
  match tags with
  | .arr xs =>
    match xs.find? (fun p => isArrB p && eqStr (jsIndex p 0) key) with
    | some t => if truthy t then jsIndex t 1 else (.undef)
    | none => (.undef)
  | _ => (.undef)

/-- Embeds `ellipsize(str, max)` (lines 35-38): non-strings and empty strings pass
through unchanged. -/
def ellipsize (v : JVal) (max : Nat) : JVal :=
  match v with
  | .str s =>
    if s == "" then .str s
    else if s.toList.length > max then .str (String.mk (s.toList.take (max - 1)) ++ "…")
    else .str s
  | v => v

/-- Embeds `shortenPath(p, keep)` (lines 40-45). -/
def shortenPath (v : JVal) (keep : Nat) : JVal :=
  match v with
  | .str s =>
    if s == "" then .str s
    else
      let parts := (s.splitOn "/").filter (· ≠ "")
      if parts.length ≤ keep then .str s
      else .str ("…/" ++ String.intercalate "/" (parts.drop (parts.length - keep)))
  | v => v

/-- Embeds `.toLowerCase()` on a JS value: only strings have the method; any other
receiver throws a `TypeError` (`none`). -/
def jsToLowerCase (v : JVal) : Option String :=
  match v with
  | .str s => some (strToLower s)
  | _ => none

/-- Embeds `toSlackDate(ev)` (lines 47-57): `some .null` is the JS `null` return,
`none` models the uncaught `RangeError` of `toISOString` on an out-of-range
epoch. -/
def toSlackDate (dp : String → Option Int) (ev : JVal) : Option JVal :=
  let dt := optChain ev "datetime"
  if truthy dt then
    match dp (jsToString dt) with
    | none => some .null
    | some ms =>
      let epoch := Int.fdiv ms 1000
      match epochToISO (epoch * 1000) with
      | none => none
      | some iso =>
        some (.str ("<!date^" ++ toString epoch ++ "^\x7bdate_short_pretty\x7d \x7btime\x7d|" ++ iso ++ ">"))
  else
    match optChain ev "timestamp" with
    | .num n =>
      match epochToISO (n * 1000) with
      | none => none
      | some iso =>
        some (.str ("<!date^" ++ toString n ++ "^\x7bdate_short_pretty\x7d \x7btime\x7d|" ++ iso ++ ">"))
    | _ => some .null

/-- Embeds `ev?.contexts?.<c>?.<k>` chains used for browser/OS detection. -/
def ctxPart (ev : JVal) (c k : String) : JVal :=
  optChain (optChain (optChain ev "contexts") c) k

/-- Embeds `isFrontend(ev)` (lines 59-66). -/
def isFrontend (ev : JVal) : Bool :=
  truthy (ctxPart ev "browser" "name") ||
  truthy (getTag (optChain ev "tags") "browser") ||
  truthy (getTag (optChain ev "tags") "client_os")

-- ---------------------------------------------------------------------------
-- First formatter: `formatSlackMessage` at lines 69-174
-- ---------------------------------------------------------------------------

/-- Embeds `body?.data?.event ?? {}` (line 71 and line 241). -/
def evOf (body : JVal) : JVal :=
  jsNullish (optChain (optChain body "data") "event") (.obj [])

/-- The value whose `.toLowerCase()` is taken on line 72:
`ev.level || getTag(ev.tags, "level") || "error"`. -/
def levelRaw1 (ev : JVal) : JVal :=
  jsOrV (getProp ev "level") (jsOrV (getTag (getProp ev "tags") "level") (.str "error"))

/-- Embeds `ev.environment || getTag(ev.tags, "environment") || "unknown"` (line 74). -/
def envOf1 (ev : JVal) : JVal :=
  jsOrV (getProp ev "environment") (jsOrV (getTag (getProp ev "tags") "environment") (.str "unknown"))

/-- Embeds `ev.metadata?.type || ""` (line 77). -/
def errorTypeOf1 (ev : JVal) : JVal :=
  jsOrV (optChain (getProp ev "metadata") "type") (.str "")

/-- Embeds `rawMessage` (lines 78-83): metadata value, title, message, formatted log
entry, then the `"Sentry Event"` placeholder. -/
def rawMessageOf1 (ev : JVal) : JVal :=
  jsOrV (optChain (getProp ev "metadata") "value") <|
    jsOrV (getProp ev "title") <|
      jsOrV (getProp ev "message") <|
        jsOrV (optChain (optChain ev "logentry") "formatted") (.str "Sentry Event")

/-- Embeds `headerTitle` (line 86): `[env] LEVEL • shortMessage`. -/
def headerTitle1 (ev : JVal) (level : String) : String :=
  "[" ++ jsToString (envOf1 ev) ++ "] " ++ strToUpper level ++ " • " ++
    jsToString (ellipsize (rawMessageOf1 ev) 100)

/-- Embeds `culprit` (lines 89-93). -/
def culpritOf1 (ev : JVal) : JVal :=
  jsOrV (getProp ev "culprit") <|
    jsOrV (getProp ev "location") <|
      jsOrV (optChain (getProp ev "metadata") "filename") (.str "")

/-- Embeds `niceCulprit` (line 94). -/
def niceCulprit1 (ev : JVal) : JVal :=
  if truthy (culpritOf1 ev) then shortenPath (culpritOf1 ev) 2 else .str ""

/-- Embeds `reqUrl` (line 101): `ev.request?.url || getTag(ev.tags, "url")`. -/
def reqUrlOf1 (ev : JVal) : JVal :=
  jsOrV (optChain (getProp ev "request") "url") (getTag (getProp ev "tags") "url")

/-- Embeds `browser` (lines 109-112): context name+version pair joined by one space
when both are truthy, else the `browser` tag. -/
def browserOf1 (ev : JVal) : JVal :=
  if truthy (ctxPart ev "browser" "name") && truthy (ctxPart ev "browser" "version") then
    .str (jsToString (ctxPart ev "browser" "name") ++ " " ++ jsToString (ctxPart ev "browser" "version"))
  else getTag (getProp ev "tags") "browser"

/-- Embeds `os` (lines 113-116). -/
def osOf1 (ev : JVal) : JVal :=
  if truthy (ctxPart ev "client_os" "name") && truthy (ctxPart ev "client_os" "version") then
    .str (jsToString (ctxPart ev "client_os" "name") ++ " " ++ jsToString (ctxPart ev "client_os" "version"))
  else getTag (getProp ev "tags") "client_os"

/-- Embeds `userBits` (lines 124-125): truthy entries of
`[ev.user?.email, ev.user?.id || getTag(ev.tags, "user")]` joined by `" • "`. -/
def userBits1 (ev : JVal) : String :=
  String.intercalate " • "
    ((([optChain (getProp ev "user") "email",
        jsOrV (optChain (getProp ev "user") "id") (getTag (getProp ev "tags") "user")]).filter
      (fun v => truthy v)).map jsToString)

/-- The `fields` pushes of lines 104-126, in order. -/
def fields1 (ev : JVal) (slackWhen : JVal) : List String :=
  (if truthy slackWhen then [fieldEntry "When" (jsToString slackWhen)] else []) ++
  [fieldEntry "Env" (jsToString (envOf1 ev))] ++
  (if isFrontend ev then
    (if truthy (browserOf1 ev) then [fieldEntry "Browser" (jsToString (browserOf1 ev))] else []) ++
    (if truthy (osOf1 ev) then [fieldEntry "OS" (jsToString (osOf1 ev))] else [])
  else
    (if truthy (reqUrlOf1 ev) then [fieldEntry "Request" ("<" ++ jsToString (reqUrlOf1 ev) ++ "|Open>")] else [])) ++
  (if userBits1 ev ≠ "" then [fieldEntry "User" (userBits1 ev)] else [])

/-- Embeds `compactFields` (line 130): at most `MAX_FIELDS = 4` entries. -/
def compactFields1 (ev : JVal) (slackWhen : JVal) : List String :=
  (fields1 ev slackWhen).take 4

/-- Embeds `contextItems` (lines 135-139). -/
def contextItems1 (ev : JVal) : List String :=
  (if truthy (getProp ev "project") then ["Project: " ++ jsToString (getProp ev "project")] else []) ++
  (if truthy (getProp ev "issue_id") then ["Issue: " ++ jsToString (getProp ev "issue_id")] else []) ++
  (if truthy (errorTypeOf1 ev) then ["Type: " ++ jsToString (errorTypeOf1 ev)] else [])

/-- Text of the header section block (lines 143-151). -/
def header1 (action ev : JVal) (level : String) : String :=
  "*" ++ levelEmoji1 level ++ " " ++ headerTitle1 ev level ++ "*" ++
  (if truthy action then "  •  _" ++ jsToString action ++ "_" else "") ++
  (if truthy (niceCulprit1 ev) then "\n*Culprit:* `" ++ jsToString (niceCulprit1 ev) ++ "`" else "")

/-- The `actions` buttons (lines 160-164), in push order. -/
def buttons1 (ev : JVal) : List (String × String) :=
  (if truthy (getProp ev "web_url") then [("Open in Sentry", jsToString (getProp ev "web_url"))] else []) ++
  (if truthy (reqUrlOf1 ev) then [("Request", jsToString (reqUrlOf1 ev))] else []) ++
  (if truthy (getProp ev "issue_url") then [("Issue API", jsToString (getProp ev "issue_url"))] else [])

/-- Blocks and fallback text of the first formatter (lines 142-173), given
the already-resolved `level` and `slackWhen`. -/
def render1 (action ev : JVal) (level : String) (slackWhen : JVal) : SlackMessage :=
  let cf := compactFields1 ev slackWhen
  let ci := contextItems1 ev
  { text := levelEmoji1 level ++ " " ++ headerTitle1 ev level
    blocks :=
      [Block.sectionText (header1 action ev level)] ++
      (if cf ≠ [] then [Block.sectionFields cf] else []) ++
      (if ci ≠ [] then [Block.context (String.intercalate "  •  " ci)] else []) ++
      (if truthy (getProp ev "web_url") || truthy (reqUrlOf1 ev) || truthy (getProp ev "issue_url")
        then [Block.actions (buttons1 ev)] else []) ++
      [Block.divider] }

/-- Body of the first `formatSlackMessage` after `action`/`ev` extraction:
the two operations that can raise are the `.toLowerCase()` of line 72 and the
`toISOString` inside `toSlackDate`. -/
def format1Core (dp : String → Option Int) (action ev : JVal) : Option SlackMessage := do
  let level ← jsToLowerCase (levelRaw1 ev)
  let slackWhen ← toSlackDate dp ev
  pure (render1 action ev level slackWhen)

/-- The first `formatSlackMessage` definition (lines 69-174).  `none` models
a thrown exception. -/
def formatSlackMessage1 (dp : String → Option Int) (body : JVal) : Option SlackMessage :=
  format1Core dp (optChain body "action") (evOf body)

-- ---------------------------------------------------------------------------
-- Second formatter: `formatSlackMessage` at lines 239-409 (with fmtISO and
-- the alias tables of lines 214-237)
-- ---------------------------------------------------------------------------

/-- Embeds `fmtISO(x)` (lines 214-224): ISO string from a numeric epoch-seconds
value, an all-digit string, or a date value; the surrounding `try/catch`
makes every failure `undefined` (`none`). -/
def fmtISO (dp : String → Option Int) (x : JVal) : Option String :=
  if !truthy x then none
  else
    match x with
    | .num n => epochToISO (n * 1000)
    | x =>
      let sx := jsToString x
      if sx ≠ "" && sx.toList.all Char.isDigit then
        epochToISO ((jsToNumber x).getD 0 * 1000)
      else
        match x with
        | .str s => (dp s).bind epochToISO
        | .bool b => epochToISO (if b then 1 else 0)
        | x' => (dp (jsToString x')).bind epochToISO

/-- The `LEVEL_ALIAS` table (lines 226-232). -/
def LEVEL_ALIAS : List (String × String) :=
  [("fatal", ":fire:"), ("error", ":rotating_light:"), ("warning", ":warning:"),
   ("info", ":information_source:"), ("debug", ":beetle:")]

/-- The `STATUS_EMOJI` table (lines 233-237). -/
def STATUS_EMOJI : List (String × String) :=
  [("unresolved", ":red_circle:"), ("resolved", ":white_check_mark:"), ("ignored", ":zzz:")]

/-- Embeds `LEVEL_ALIAS[level] || ":rotating_light:"` (line 254): an own key
hits the table; otherwise bracket access reaches the inherited truthy
`Object.prototype` members (rendered per `protoProps`) before the `||`
default applies. -/
def baseEmojiOf (level : String) : String :=
  match LEVEL_ALIAS.lookup level with
  | some e => e
  | none =>
    match protoProps.lookup level with
    | some f => f
    | none => ":rotating_light:"

/-- Embeds `STATUS_EMOJI[status] || ""` (line 255); the JS property key is the
string coercion of `status`, and bracket access reaches the inherited truthy
`Object.prototype` members before the `||` default applies. -/
def statusEmojiOf (status : JVal) : String :=
  match STATUS_EMOJI.lookup (jsToString status) with
  | some e => e
  | none =>
    match protoProps.lookup (jsToString status) with
    | some f => f
    | none => ""

/-- Issue-style detection (line 242):
`(!body?.data?.event && body?.id && body?.title) ? body : null`. -/
def issueOf (body : JVal) : JVal :=
  if !truthy (optChain (optChain body "data") "event") &&
     truthy (optChain body "id") && truthy (optChain body "title") then body
  else .null

/-- The tag-search loop `tags.find(t => t[0] === k)?.[1]` of the second
formatter: a `null`/`undefined` element makes `t[0]` throw (`none`); an
absent match yields `undefined`. -/
def tagFindLoop : List JVal → String → Option JVal
  | [], _ => some (.undef)
  | .null :: _, _ => none
  | .undef :: _, _ => none
  | t :: ts, k => if eqStr (jsIndex t 0) k then some (jsIndex t 1) else tagFindLoop ts k

/-- The expression `(Array.isArray(ev.tags) && ev.tags.find(t => t[0] === k)?.[1])`
as a value: `false` when `tags` is not an array. -/
def tagExpr (tags : JVal) (k : String) : Option JVal :=
  match tags with
  | .arr xs => tagFindLoop xs k
  | _ => some (.bool false)

/-- The value whose `.toLowerCase()` is taken on lines 244-248:
`ev.level || (isArray && find "level") || issue?.level || "error"`. -/
def levelRaw2 (ev issue : JVal) : Option JVal :=
  jsOrOpt (getProp ev "level") <|
    (tagExpr (getProp ev "tags") "level").bind fun t =>
      jsOrOpt t (some (jsOrV (optChain issue "level") (.str "error")))

/-- The resolved (lower-cased) level of the second formatter. -/
def levelOf2 (ev issue : JVal) : Option String :=
  (levelRaw2 ev issue).bind jsToLowerCase

/-- Embeds `issue?.status || ev?.issue_status` (line 250). -/
def statusOf2 (ev issue : JVal) : JVal :=
  jsOrV (optChain issue "status") (optChain ev "issue_status")

/-- Embeds `issue?.substatus` (line 251). -/
def substatusOf2 (issue : JVal) : JVal :=
  optChain issue "substatus"

/-- Embeds `issue?.priority || ev?.issue_priority` (line 252). -/
def priorityOf2 (ev issue : JVal) : JVal :=
  jsOrV (optChain issue "priority") (optChain ev "issue_priority")

/-- Embeds `title` (lines 258-263). -/
def titleOf2 (ev issue : JVal) : JVal :=
  jsOrV (optChain issue "title") <|
    jsOrV (getProp ev "title") <|
      jsOrV (getProp ev "message") <|
        jsOrV (optChain (optChain ev "logentry") "formatted") (.str "Sentry Event")

/-- Embeds `culprit` (lines 265-270). -/
def culpritOf2 (ev issue : JVal) : JVal :=
  jsOrV (optChain issue "culprit") <|
    jsOrV (getProp ev "culprit") <|
      jsOrV (getProp ev "location") <|
        jsOrV (optChain (getProp ev "metadata") "filename") (.str "")

/-- Embeds `environment` (lines 272-275): explicit field, else `environment` tag,
else `undefined` — note the second formatter has no `"unknown"` default. -/
def envOf2 (ev : JVal) : Option JVal :=
  jsOrOpt (getProp ev "environment") <|
    (tagExpr (getProp ev "tags") "environment").bind fun t => jsOrOpt t (some .undef)

/-- Embeds `errorType` (lines 277-280). -/
def errorTypeOf2 (ev issue : JVal) : JVal :=
  jsOrV (optChain (optChain issue "metadata") "type") <|
    jsOrV (optChain (optChain ev "metadata") "type") (.undef)

/-- Embeds `projectName` (lines 282-286). -/
def projectNameOf2 (ev issue : JVal) : JVal :=
  jsOrV (optChain (optChain issue "project") "name") <|
    jsOrV (getProp ev "project_slug") <| jsOrV (getProp ev "project") (.undef)

/-- Embeds `projectSlug` (lines 288-291). -/
def projectSlugOf2 (ev issue : JVal) : JVal :=
  jsOrV (optChain (optChain issue "project") "slug") <| jsOrV (getProp ev "project_slug") (.undef)

/-- Embeds `platform` (lines 293-297). -/
def platformOf2 (ev issue : JVal) : JVal :=
  jsOrV (optChain issue "platform") <|
    jsOrV (getProp ev "platform") <|
      jsOrV (optChain (optChain (optChain ev "contexts") "runtime") "name") (.undef)

/-- Embeds `eventWebUrl` (line 299). -/
def eventWebUrlOf2 (ev issue : JVal) : JVal :=
  jsOrV (getProp ev "web_url") (optChain issue "permalink")

/-- Embeds `issueApiUrl` (line 300). -/
def issueApiUrlOf2 (ev issue : JVal) : JVal :=
  jsOrV (getProp ev "issue_url")
    (if truthy (optChain issue "permalink")
      then .str (jsToString (optChain issue "permalink") ++ "events/") else .undef)

/-- Embeds `reqUrl` (lines 302-305). -/
def reqUrlOf2 (ev : JVal) : Option JVal :=
  jsOrOpt (optChain (getProp ev "request") "url") <|
    (tagExpr (getProp ev "tags") "url").bind fun t => jsOrOpt t (some .undef)

/-- Embeds `browser` (lines 307-312): context name+version joined by one space when
both truthy, else the `browser` tag, else the `browser.name` tag, else
`undefined`. -/
def browserOf2 (ev : JVal) : Option JVal :=
  if truthy (ctxPart ev "browser" "name") && truthy (ctxPart ev "browser" "version") then
    some (.str (jsToString (ctxPart ev "browser" "name") ++ " " ++ jsToString (ctxPart ev "browser" "version")))
  else
    (tagExpr (getProp ev "tags") "browser").bind fun t =>
      jsOrOpt t <| (tagExpr (getProp ev "tags") "browser.name").bind fun t2 =>
        jsOrOpt t2 (some .undef)

/-- Embeds `os` (lines 314-319). -/
def osOf2 (ev : JVal) : Option JVal :=
  if truthy (ctxPart ev "client_os" "name") && truthy (ctxPart ev "client_os" "version") then
    some (.str (jsToString (ctxPart ev "client_os" "name") ++ " " ++ jsToString (ctxPart ev "client_os" "version")))
  else
    (tagExpr (getProp ev "tags") "client_os").bind fun t =>
      jsOrOpt t <| (tagExpr (getProp ev "tags") "client_os.name").bind fun t2 =>
        jsOrOpt t2 (some .undef)

/-- Embeds `userBits` (lines 321-325). -/
def userBitsOf2 (ev : JVal) : Option String :=
  (jsOrOpt (optChain (getProp ev "user") "id") (tagExpr (getProp ev "tags") "user")).bind fun uid =>
    some (String.intercalate " • "
      ((([optChain (getProp ev "user") "email", uid]).filter (fun v => truthy v)).map jsToString))

/-- Embeds `timestampISO` (lines 328-329): `ev.datetime || fmtISO(ev.timestamp)`. -/
def timestampISOOf2 (dp : String → Option Int) (ev : JVal) : JVal :=
  jsOrV (getProp ev "datetime")
    (match fmtISO dp (getProp ev "timestamp") with
     | some s => .str s
     | none => .undef)

/-- Embeds `firstSeen` (line 330). -/
def firstSeenOf2 (dp : String → Option Int) (issue : JVal) : JVal :=
  if truthy (optChain issue "firstSeen") then
    match fmtISO dp (optChain issue "firstSeen") with
    | some s => .str s
    | none => (.undef)
  else (.undef)

/-- Embeds `lastSeen` (line 331). -/
def lastSeenOf2 (dp : String → Option Int) (issue : JVal) : JVal :=
  if truthy (optChain issue "lastSeen") then
    match fmtISO dp (optChain issue "lastSeen") with
    | some s => .str s
    | none => (.undef)
  else (.undef)

/-- Embeds `eventCount` (line 334): `issue?.count ? Number(issue.count) : undefined`;
the outer `none` is `undefined`, the inner one `NaN`. -/
def eventCountOf2 (issue : JVal) : Option (Option Int) :=
  if truthy (optChain issue "count") then some (jsToNumber (optChain issue "count")) else none

/-- Embeds `userCount` (line 335): `issue?.userCount ?? undefined`. -/
def userCountOf2 (issue : JVal) : JVal :=
  jsNullish (optChain issue "userCount") (.undef)

/-- Loose `x != null`: false exactly for `null` and `undefined`. -/
def looseNeNull : JVal → Bool
  | .null => false
  | .undef => false
  | _ => true

/-- Embeds `firstRel` (line 338). -/
def firstRelOf2 (issue : JVal) : JVal :=
  jsOrV (optChain (optChain issue "firstRelease") "shortVersion")
    (optChain (optChain (optChain issue "firstRelease") "versionInfo") "description")

/-- Embeds `lastRel` (line 339). -/
def lastRelOf2 (issue : JVal) : JVal :=
  jsOrV (optChain (optChain issue "lastRelease") "shortVersion")
    (optChain (optChain (optChain issue "lastRelease") "versionInfo") "description")

/-- The `fields` pushes of lines 342-362, in order, over the resolved
values. -/
def fields2 (level : String) (environment priority status substatus : JVal)
    (eventCount : Option (Option Int)) (userCount firstSeen timestampISO lastSeen browser os : JVal)
    (userBits : String) (firstRel lastRel : JVal) : List String :=
  (if truthy environment then [fieldEntry "Env" (jsToString environment)] else []) ++
  (if truthy priority then [fieldEntry "Priority" (jsToString priority)] else []) ++
  (if truthy status then
    [fieldEntry "Status" (jsToString status ++
      (if truthy substatus then " (" ++ jsToString substatus ++ ")" else ""))] else []) ++
  (if level ≠ "" then [fieldEntry "Level" level] else []) ++
  (match eventCount with
   | some c => [fieldEntry "Events" (numDisplay c)]
   | none => []) ++
  (if looseNeNull userCount then [fieldEntry "Users" (jsToString userCount)] else []) ++
  (if truthy firstSeen || truthy timestampISO then
    [fieldEntry "First seen" (jsToString (jsOrV firstSeen timestampISO))] else []) ++
  (if truthy lastSeen then [fieldEntry "Last seen" (jsToString lastSeen)] else []) ++
  (if truthy browser then [fieldEntry "Browser" (jsToString browser)] else []) ++
  (if truthy os then [fieldEntry "OS" (jsToString os)] else []) ++
  (if userBits ≠ "" then [fieldEntry "User" userBits] else []) ++
  (if truthy firstRel then [fieldEntry "First release" ("`" ++ jsToString firstRel ++ "`")] else []) ++
  (if truthy lastRel then [fieldEntry "Last release" ("`" ++ jsToString lastRel ++ "`")] else [])

/-- Embeds `shortId` (line 365): `issue?.shortId || ev?.event_id`. -/
def shortIdOf2 (ev issue : JVal) : JVal :=
  jsOrV (optChain issue "shortId") (optChain ev "event_id")

/-- Embeds `contextItems` (lines 366-372). -/
def contextItems2 (ev issue : JVal) : List String :=
  (if truthy (projectNameOf2 ev issue) then ["Project: " ++ jsToString (projectNameOf2 ev issue)] else []) ++
  (if truthy (projectSlugOf2 ev issue) then ["Slug: " ++ jsToString (projectSlugOf2 ev issue)] else []) ++
  (if truthy (platformOf2 ev issue) then ["Platform: " ++ jsToString (platformOf2 ev issue)] else []) ++
  (if truthy (shortIdOf2 ev issue) then ["ID: " ++ jsToString (shortIdOf2 ev issue)] else []) ++
  (if truthy (errorTypeOf2 ev issue) then ["Type: " ++ jsToString (errorTypeOf2 ev issue)] else [])

/-- Embeds `linkTexts` (lines 375-378), given the resolved `reqUrl`. -/
def linkTexts2 (ev issue reqUrl : JVal) : List String :=
  (if truthy (eventWebUrlOf2 ev issue) then ["<" ++ jsToString (eventWebUrlOf2 ev issue) ++ "|Open in Sentry>"] else []) ++
  (if truthy (issueApiUrlOf2 ev issue) then ["<" ++ jsToString (issueApiUrlOf2 ev issue) ++ "|Events in Issue>"] else []) ++
  (if truthy reqUrl then ["<" ++ jsToString reqUrl ++ "|Request URL>"] else [])

/-- Embeds `headerLines` (lines 381-391). -/
def header2 (ev issue : JVal) (level : String) : String :=
  let status := statusOf2 ev issue
  let substatus := substatusOf2 issue
  let se := statusEmojiOf status
  let headline :=
    "*" ++ baseEmojiOf level ++ (if se ≠ "" then " " ++ se else "") ++
    (if eqStr substatus "escalating" then " :chart_with_upwards_trend:" else "") ++
    " Sentry " ++ strToUpper level ++ "*" ++
    (if truthy status || truthy substatus then
      "  •  _" ++ String.intercalate " / " ((([status, substatus]).filter (fun v => truthy v)).map jsToString) ++ "_"
    else "")
  let whereFn := jsOrV (optChain (optChain issue "metadata") "function") (optChain (optChain ev "metadata") "function")
  let whereLine :=
    "*Where:* `" ++
    jsToString (jsOrV (optChain (optChain issue "metadata") "filename")
      (jsOrV (optChain (optChain ev "metadata") "filename") (.str ""))) ++
    (if truthy whereFn then "#" ++ jsToString whereFn else "") ++ "`"
  String.intercalate "\n"
    ([headline, "*Title:* " ++ jsToString (titleOf2 ev issue)] ++
     (if truthy (culpritOf2 ev issue) then ["*Culprit:* `" ++ jsToString (culpritOf2 ev issue) ++ "`"] else []) ++
     (if truthy (optChain (optChain issue "metadata") "filename") ||
        truthy (optChain (optChain ev "metadata") "filename") ||
        truthy (optChain (optChain ev "metadata") "function") then [whereLine] else []))

/-- Blocks and fallback text of the second formatter (lines 393-408), given
the already-resolved throwing-position values. -/
def render2 (dp : String → Option Int) (ev issue : JVal) (level : String)
    (environment reqUrl browser os : JVal) (userBits : String) : SlackMessage :=
  let fs := fields2 level environment (priorityOf2 ev issue) (statusOf2 ev issue)
      (substatusOf2 issue) (eventCountOf2 issue) (userCountOf2 issue)
      (firstSeenOf2 dp issue) (timestampISOOf2 dp ev) (lastSeenOf2 dp issue)
      browser os userBits (firstRelOf2 issue) (lastRelOf2 issue)
  let ci := contextItems2 ev issue
  let ls := linkTexts2 ev issue reqUrl
  { text := baseEmojiOf level ++ " Sentry " ++ strToUpper level ++ ": " ++ jsToString (titleOf2 ev issue)
    blocks :=
      [Block.sectionText (header2 ev issue level)] ++
      (if fs ≠ [] then [Block.sectionFields fs] else []) ++
      (if ci ≠ [] then [Block.context (String.intercalate "  •  " ci)] else []) ++
      [Block.divider] ++
      (if ls ≠ [] then [Block.context (String.intercalate "  •  " ls)] else []) }

/-- Body of the second `formatSlackMessage` after `ev`/`issue` extraction.
The operations that can raise, in source order: the level chain's tag search
and `.toLowerCase()`, and the tag searches of `environment`, `reqUrl`,
`browser`, `os` and `userBits`. -/
def format2Core (dp : String → Option Int) (ev issue : JVal) : Option SlackMessage := do
  let level ← levelOf2 ev issue
  let environment ← envOf2 ev
  let reqUrl ← reqUrlOf2 ev
  let browser ← browserOf2 ev
  let os ← osOf2 ev
  let userBits ← userBitsOf2 ev
  pure (render2 dp ev issue level environment reqUrl browser os userBits)

/-- The second `formatSlackMessage` definition (lines 239-409), the one a
caller of the module observes.  `none` models a thrown exception. -/
def formatSlackMessage2 (dp : String → Option Int) (body : JVal) : Option SlackMessage :=
  format2Core dp (evOf body) (issueOf body)

/-- Embeds `api/sentry-backend.js`: method guard, channel check, format, deliver;
exceptions become a 500 response carrying the error message (engine-generated
`TypeError` texts are abbreviated to `"TypeError"`).  `channel` models
`process.env.SLACK_CHANNEL_BACKEND`.  A `pending` delivery never responds
(status 0 here). -/
def handlerBackend (dp : String → Option Int) (token channel : JVal)
    (script : List HttpResp) (req : Req) : HandlerOutcome :=
  match methodGuard req with
  | some o => o
  | none =>
    if !truthy channel then
      ⟨500, none, .obj [("error", .str "Missing SLACK_CHANNEL_BACKEND")], false, 0⟩
    else
      match formatSlackMessage2 dp (jsOrV req.body (.obj [])) with
      | none => ⟨500, none, .obj [("error", .str "TypeError")], true, 0⟩
      | some payload =>
        let o := postToSlack token channel payload script
        match o.result with
        | .ok _ => ⟨200, none, .obj [("ok", .bool true)], true, o.calls⟩
        | .err m => ⟨500, none, .obj [("error", .str m)], true, o.calls⟩
        | .typeError => ⟨500, none, .obj [("error", .str "TypeError")], true, o.calls⟩
        | .pending => ⟨0, none, .undef, true, o.calls⟩

/-- Embeds `api/sentry-frontend.js`: same shape as the backend handler with
`process.env.SLACK_CHANNEL_FRONTEND` (its channel check sits before the
`try`, which is observationally identical). -/
def handlerFrontend (dp : String → Option Int) (token channel : JVal)
    (script : List HttpResp) (req : Req) : HandlerOutcome :=
  match methodGuard req with
  | some o => o
  | none =>
    if !truthy channel then
      ⟨500, none, .obj [("error", .str "Missing SLACK_CHANNEL_FRONTEND")], false, 0⟩
    else
      match formatSlackMessage2 dp (jsOrV req.body (.obj [])) with
      | none => ⟨500, none, .obj [("error", .str "TypeError")], true, 0⟩
      | some payload =>
        let o := postToSlack token channel payload script
        match o.result with
        | .ok _ => ⟨200, none, .obj [("ok", .bool true)], true, o.calls⟩
        | .err m => ⟨500, none, .obj [("error", .str m)], true, o.calls⟩
        | .typeError => ⟨500, none, .obj [("error", .str "TypeError")], true, o.calls⟩
        | .pending => ⟨0, none, .undef, true, o.calls⟩

-- ---------------------------------------------------------------------------
-- Predicates used to state the claims
-- ---------------------------------------------------------------------------

/-- Holds of every value except `null` and `undefined`. -/
def notNullish : JVal → Bool
  | .null => false
  | .undef => false
  | _ => true

/-- Shape of `tags` values: a `tags` value on its own is harmless unless it
is an array containing a `null`/`undefined` element (which makes the second
formatter's `t[0]` throw). -/
def tagsOkV : JVal → Bool
  | .arr xs => xs.all notNullish
  | _ => true

/-- Well-shaped tag collection of an event. -/
def tagsOk (ev : JVal) : Bool :=
  tagsOkV (getProp ev "tags")

/-- The value picked by the first formatter's level chain is a string (so its
`.toLowerCase()` does not throw). -/
def levelOk1 (ev : JVal) : Bool :=
  match levelRaw1 ev with
  | .str _ => true
  | _ => false

/-- The value picked by the second formatter's level chain is a string. -/
def levelOk2 (ev issue : JVal) : Bool :=
  match levelRaw2 ev issue with
  | some (.str _) => true
  | _ => false

/-- In the absence of a `datetime`, a numeric `timestamp` is within the range
`new Date(epoch * 1000)` can represent (otherwise `toSlackDate`'s
`toISOString` throws a `RangeError`). -/
def timestampOk (ev : JVal) : Bool :=
  if truthy (optChain ev "datetime") then true
  else
    match optChain ev "timestamp" with
    | .num n => n.natAbs ≤ 8640000000000
    | _ => true

/-- The tag expression of the second formatter completes and yields a falsy
value (no such tag, or `tags` is not an array). -/
def tagFalsy (tags : JVal) (k : String) : Bool :=
  match tagExpr tags k with
  | some w => !truthy w
  | none => false

/-- Every source of the first formatter's level chain is absent/falsy. -/
def levelAbsent1 (ev : JVal) : Bool :=
  !truthy (getProp ev "level") && !truthy (getTag (getProp ev "tags") "level")

/-- Every source of the second formatter's level chain is absent/falsy. -/
def levelAbsent2 (ev issue : JVal) : Bool :=
  !truthy (getProp ev "level") && tagFalsy (getProp ev "tags") "level" &&
    !truthy (optChain issue "level")

/-- Every source of the first formatter's title chain is absent/falsy. -/
def titleAbsent1 (ev : JVal) : Bool :=
  !truthy (optChain (getProp ev "metadata") "value") && !truthy (getProp ev "title") &&
    !truthy (getProp ev "message") && !truthy (optChain (optChain ev "logentry") "formatted")

/-- Every source of the second formatter's title chain is absent/falsy. -/
def titleAbsent2 (ev issue : JVal) : Bool :=
  !truthy (optChain issue "title") && !truthy (getProp ev "title") &&
    !truthy (getProp ev "message") && !truthy (optChain (optChain ev "logentry") "formatted")

/-- Every source of the first formatter's environment chain is absent/falsy. -/
def envAbsent1 (ev : JVal) : Bool :=
  !truthy (getProp ev "environment") && !truthy (getTag (getProp ev "tags") "environment")

/-- Every source of the second formatter's environment chain is absent/falsy. -/
def envAbsent2 (ev : JVal) : Bool :=
  !truthy (getProp ev "environment") && tagFalsy (getProp ev "tags") "environment"

/-- Extract the message of a formatter result, with an empty placeholder for
the thrown case (used to name concrete messages in closed statements). -/
def msgOrEmpty (o : Option SlackMessage) : SlackMessage :=
  o.getD ⟨"", []⟩

-- ---------------------------------------------------------------------------
-- Shared helper lemmas
-- ---------------------------------------------------------------------------

/-- A tag search over a list with no nullish element completes. -/
theorem tagFindLoop_isSome (k : String) :
    ∀ xs : List JVal, xs.all notNullish = true → (tagFindLoop xs k).isSome = true := by
  intro xs
  induction xs with
  | nil => intro _; rfl
  | cons t ts ih =>
    intro h
    rw [List.all_cons, Bool.and_eq_true] at h
    cases t with
    | null => simp [notNullish] at h
    | undef => simp [notNullish] at h
    | bool b => simp only [tagFindLoop]; split <;> simp [ih h.2]
    | num n => simp only [tagFindLoop]; split <;> simp [ih h.2]
    | str s => simp only [tagFindLoop]; split <;> simp [ih h.2]
    | arr a => simp only [tagFindLoop]; split <;> simp [ih h.2]
    | obj o => simp only [tagFindLoop]; split <;> simp [ih h.2]

/-- The full tag expression completes on a well-shaped `tags` value. -/
theorem tagExpr_isSome (tags : JVal) (k : String) (h : tagsOkV tags = true) :
    (tagExpr tags k).isSome = true := by
  cases tags
  case arr xs => exact tagFindLoop_isSome k xs (by simpa [tagsOkV] using h)
  all_goals rfl

/-- Embeds `jsOrOpt` completes when its fallback does. -/
theorem jsOrOpt_isSome (a : JVal) (b : Option JVal) (h : b.isSome = true) :
    (jsOrOpt a b).isSome = true := by
  unfold jsOrOpt
  split <;> simp [h]

/-- The environment resolution of the second formatter completes on
well-shaped tags. -/
theorem envOf2_isSome (ev : JVal) (h : tagsOk ev = true) :
    (envOf2 ev).isSome = true := by
  unfold envOf2
  apply jsOrOpt_isSome
  obtain ⟨w, hw⟩ := Option.isSome_iff_exists.mp (tagExpr_isSome (getProp ev "tags") "environment" h)
  rw [hw]
  exact jsOrOpt_isSome _ _ rfl

/-- The request-url resolution of the second formatter completes on
well-shaped tags. -/
theorem reqUrlOf2_isSome (ev : JVal) (h : tagsOk ev = true) :
    (reqUrlOf2 ev).isSome = true := by
  unfold reqUrlOf2
  apply jsOrOpt_isSome
  obtain ⟨w, hw⟩ := Option.isSome_iff_exists.mp (tagExpr_isSome (getProp ev "tags") "url" h)
  rw [hw]
  exact jsOrOpt_isSome _ _ rfl

/-- The browser resolution of the second formatter completes on well-shaped
tags. -/
theorem browserOf2_isSome (ev : JVal) (h : tagsOk ev = true) :
    (browserOf2 ev).isSome = true := by
  unfold browserOf2
  split
  · rfl
  · obtain ⟨w, hw⟩ := Option.isSome_iff_exists.mp (tagExpr_isSome (getProp ev "tags") "browser" h)
    obtain ⟨w2, hw2⟩ := Option.isSome_iff_exists.mp (tagExpr_isSome (getProp ev "tags") "browser.name" h)
    rw [hw]
    apply jsOrOpt_isSome
    rw [hw2]
    exact jsOrOpt_isSome _ _ rfl

/-- The OS resolution of the second formatter completes on well-shaped
tags. -/
theorem osOf2_isSome (ev : JVal) (h : tagsOk ev = true) :
    (osOf2 ev).isSome = true := by
  unfold osOf2
  split
  · rfl
  · obtain ⟨w, hw⟩ := Option.isSome_iff_exists.mp (tagExpr_isSome (getProp ev "tags") "client_os" h)
    obtain ⟨w2, hw2⟩ := Option.isSome_iff_exists.mp (tagExpr_isSome (getProp ev "tags") "client_os.name" h)
    rw [hw]
    apply jsOrOpt_isSome
    rw [hw2]
    exact jsOrOpt_isSome _ _ rfl

/-- The user-bits resolution of the second formatter completes on well-shaped
tags. -/
theorem userBitsOf2_isSome (ev : JVal) (h : tagsOk ev = true) :
    (userBitsOf2 ev).isSome = true := by
  unfold userBitsOf2
  obtain ⟨w, hw⟩ := Option.isSome_iff_exists.mp (tagExpr_isSome (getProp ev "tags") "user" h)
  have : (jsOrOpt (optChain (getProp ev "user") "id") (tagExpr (getProp ev "tags") "user")).isSome = true := by
    apply jsOrOpt_isSome
    simp [hw]
  obtain ⟨u, hu⟩ := Option.isSome_iff_exists.mp this
  simp [hu]

/-- The level resolution of the second formatter completes when the picked
value is a string. -/
theorem levelOf2_isSome (ev issue : JVal) (h : levelOk2 ev issue = true) :
    (levelOf2 ev issue).isSome = true := by
  unfold levelOk2 at h
  unfold levelOf2
  rcases hl : levelRaw2 ev issue with _ | v
  · rw [hl] at h; simp at h
  · rw [hl] at h
    cases v <;> simp_all [jsToLowerCase]

/-- The level resolution of the first formatter completes when the picked
value is a string. -/
theorem level1_isSome (ev : JVal) (h : levelOk1 ev = true) :
    (jsToLowerCase (levelRaw1 ev)).isSome = true := by
  unfold levelOk1 at h
  cases hl : levelRaw1 ev <;> rw [hl] at h <;> simp_all [jsToLowerCase]

/-- Flooring an in-range epoch to whole seconds keeps it in range. -/
theorem fdiv_thousand_bound (ms : Int) (h : ms.natAbs ≤ 8640000000000000) :
    (Int.fdiv ms 1000 * 1000).natAbs ≤ 8640000000000000 := by
  rw [Int.fdiv_eq_ediv _ (by norm_num)]
  have h1 := Int.ediv_add_emod ms 1000
  have h2 := Int.emod_nonneg ms (by norm_num : (1000 : Int) ≠ 0)
  have h3 := Int.emod_lt_of_pos ms (by norm_num : (0 : Int) < 1000)
  omega

/-- Embeds `toSlackDate` completes for a valid `Date.parse` model and an in-range
numeric timestamp. -/
theorem toSlackDate_isSome (dp : String → Option Int) (hdp : DateParseOk dp) (ev : JVal)
    (h : timestampOk ev = true) : (toSlackDate dp ev).isSome = true := by
  cases hdt : truthy (optChain ev "datetime") with
  | true =>
    rcases hd : dp (jsToString (optChain ev "datetime")) with _ | ms
    · simp [toSlackDate, hdt, hd]
    · have hb := fdiv_thousand_bound ms (hdp _ _ hd)
      simp [toSlackDate, hdt, hd, epochToISO, hb]
  | false =>
    unfold timestampOk at h
    rw [if_neg (by simp [hdt])] at h
    rcases ht : optChain ev "timestamp" with _ | _ | b | n | s | xs | kvs
    · simp [toSlackDate, hdt, ht]
    · simp [toSlackDate, hdt, ht]
    · simp [toSlackDate, hdt, ht]
    · rw [ht] at h
      have hb : (n * 1000).natAbs ≤ 8640000000000000 := by
        simp only [decide_eq_true_eq] at h
        have := Int.natAbs_mul n 1000
        omega
      simp [toSlackDate, hdt, ht, epochToISO, hb]
    · simp [toSlackDate, hdt, ht]
    · simp [toSlackDate, hdt, ht]
    · simp [toSlackDate, hdt, ht]

-- ---------------------------------------------------------------------------
-- Claim C4
-- ---------------------------------------------------------------------------

/-- C4: `postToSlack(channel, payload)` fails immediately — before any
network call (zero calls issued) — when the bot token is absent (or empty,
hence falsy) in process configuration, and likewise when the channel
identifier is empty or absent. -/
theorem c4_config_errors (token channel : JVal) (payload : SlackMessage)
    (script : List HttpResp) :
    (truthy token = false →
      postToSlack token channel payload script =
        ⟨.err "Missing SLACK_APP_AUTH_TOKEN", 0, []⟩) ∧
    (truthy token = true → truthy channel = false →
      postToSlack token channel payload script =
        ⟨.err "Missing Slack channel id", 0, []⟩) := by
  constructor
  · intro h
    cases script <;> simp [postToSlack, h]
  · intro h1 h2
    cases script <;> simp [postToSlack, h1, h2]

/-- Witness for C4 at a concrete missing token and a concrete empty
channel. -/
theorem c4_witness :
    postToSlack JVal.undef (JVal.str "C1") ⟨"m", []⟩ [] =
      ⟨.err "Missing SLACK_APP_AUTH_TOKEN", 0, []⟩ ∧
    postToSlack (JVal.str "xoxb-1") (JVal.str "") ⟨"m", []⟩ [] =
      ⟨.err "Missing Slack channel id", 0, []⟩ :=
  ⟨(c4_config_errors JVal.undef (JVal.str "C1") ⟨"m", []⟩ []).1 rfl,
   (c4_config_errors (JVal.str "xoxb-1") (JVal.str "") ⟨"m", []⟩ []).2 (by decide) rfl⟩

-- ---------------------------------------------------------------------------
-- Claim C2
-- ---------------------------------------------------------------------------

/-- C2: on a 429 the client reads `retry-after` as seconds via `parseInt`
(falling back to 1 when the header is missing or unparsable), sleeps exactly
`retrySecs * 1000` milliseconds once, and recurses into itself; a 429
followed by a success returns the success data exactly once after exactly
one such delay (two network calls, one sleep). -/
theorem c2_rate_limit_retry (token channel : JVal) (payload : SlackMessage)
    (r1 r2 : HttpResp) (rest : List HttpResp)
    (htok : truthy token = true) (hch : truthy channel = true)
    (h429 : r1.status = 429) (hr2 : r2.status ≠ 429)
    (hn : r2.body ≠ .null) (hu : r2.body ≠ .undef)
    (hok : truthy (getProp r2.body "ok") = true) :
    postToSlack token channel payload (r1 :: r2 :: rest) =
      ⟨.ok r2.body, 2, [retryDelayMs r1]⟩ ∧
    (r1.retryAfter = none → retryDelayMs r1 = 1000) ∧
    (∀ s, r1.retryAfter = some s → jsParseInt (raStr r1) = none → retryDelayMs r1 = 1000) ∧
    (∀ script : List HttpResp, postToSlack token channel payload (r1 :: script) =
      ⟨(postToSlack token channel payload script).result,
       (postToSlack token channel payload script).calls + 1,
       retryDelayMs r1 :: (postToSlack token channel payload script).sleeps⟩) := by
  have key : postToSlack token channel payload (r2 :: rest) = ⟨.ok r2.body, 1, []⟩ := by
    rcases hb : r2.body with _ | _ | b | n | s | xs | kvs
    · exact absurd hb hu
    · exact absurd hb hn
    all_goals
      rw [hb] at hok
      simp [postToSlack, htok, hch, beq_iff_eq, hr2, hb, hok]
  have step : ∀ script : List HttpResp, postToSlack token channel payload (r1 :: script) =
      ⟨(postToSlack token channel payload script).result,
       (postToSlack token channel payload script).calls + 1,
       retryDelayMs r1 :: (postToSlack token channel payload script).sleeps⟩ := by
    intro script
    simp [postToSlack, htok, hch, h429]
  refine ⟨?_, ?_, ?_, step⟩
  · rw [step, key]
  · intro h
    have h1 : raStr r1 = "1" := by simp [raStr, h]
    simp [retryDelayMs, retrySecs, h1]
    decide
  · intro s _ hnone
    simp [retryDelayMs, retrySecs, hnone]

/-- Witness for C2: a 429 carrying `retry-after: 7` then a success; the
result is the success acknowledgement after a single 7000 ms sleep. -/
theorem c2_witness :
    postToSlack (JVal.str "xoxb-1") (JVal.str "C1") ⟨"m", []⟩
      [⟨429, some "7", JVal.obj [], "Too Many Requests"⟩,
       ⟨200, none, JVal.obj [("ok", JVal.bool true)], "OK"⟩] =
      ⟨.ok (JVal.obj [("ok", JVal.bool true)]), 2, [7000]⟩ :=
  (c2_rate_limit_retry (JVal.str "xoxb-1") (JVal.str "C1") ⟨"m", []⟩
    ⟨429, some "7", JVal.obj [], "Too Many Requests"⟩
    ⟨200, none, JVal.obj [("ok", JVal.bool true)], "OK"⟩ []
    (by decide) (by decide) rfl (by decide)
    (fun h => JVal.noConfusion h) (fun h => JVal.noConfusion h) rfl).1

-- ---------------------------------------------------------------------------
-- Claim C5
-- ---------------------------------------------------------------------------

/-- C5 (amended): for a response that is neither rate-limited nor a JSON
`null` body, a non-ok reply fails with `Slack API error:` plus the provider
reason when truthy, else the HTTP status text; an ok reply returns the
provider data. -/
theorem c5_non_success (token channel : JVal) (payload : SlackMessage)
    (r : HttpResp) (rest : List HttpResp)
    (htok : truthy token = true) (hch : truthy channel = true)
    (hr : r.status ≠ 429) (hn : r.body ≠ .null) (hu : r.body ≠ .undef) :
    (truthy (getProp r.body "ok") = false →
      postToSlack token channel payload (r :: rest) =
        ⟨.err ("Slack API error: " ++ slackErrReason r), 1, []⟩) ∧
    (truthy (getProp r.body "ok") = true →
      postToSlack token channel payload (r :: rest) = ⟨.ok r.body, 1, []⟩) := by
  constructor <;> intro hok <;>
    rcases hb : r.body with _ | _ | b | n | s | xs | kvs <;>
      first
        | exact absurd hb hu
        | exact absurd hb hn
        | (rw [hb] at hok
           simp [postToSlack, htok, hch, beq_iff_eq, hr, hb, hok, slackErrReason])

/-- Counterexample for C5 as stated: a non-429, non-success response whose
JSON body is `null` makes `data.ok` throw a `TypeError`; the operation fails
but not with an error describing the provider reason or status text. -/
theorem c5_counterexample :
    postToSlack (JVal.str "xoxb-1") (JVal.str "C1") ⟨"m", []⟩
      [⟨500, none, JVal.null, "Internal Server Error"⟩] = ⟨.typeError, 1, []⟩ ∧
    (postToSlack (JVal.str "xoxb-1") (JVal.str "C1") ⟨"m", []⟩
      [⟨500, none, JVal.null, "Internal Server Error"⟩]).result ≠
      .err ("Slack API error: " ++ "Internal Server Error") :=
  ⟨rfl, fun h => nomatch h⟩

/-- Witness for C5's amended theorem: a 500 with reason `invalid_auth` fails
with that reason, and an ok body succeeds. -/
theorem c5_witness :
    postToSlack (JVal.str "xoxb-1") (JVal.str "C1") ⟨"m", []⟩
      [⟨500, none, JVal.obj [("ok", JVal.bool false), ("error", JVal.str "invalid_auth")],
        "Internal Server Error"⟩] =
      ⟨.err ("Slack API error: " ++
        slackErrReason ⟨500, none, JVal.obj [("ok", JVal.bool false), ("error", JVal.str "invalid_auth")],
          "Internal Server Error"⟩), 1, []⟩ :=
  (c5_non_success (JVal.str "xoxb-1") (JVal.str "C1") ⟨"m", []⟩
    ⟨500, none, JVal.obj [("ok", JVal.bool false), ("error", JVal.str "invalid_auth")],
      "Internal Server Error"⟩ []
    (by decide) (by decide) (by decide)
    (fun h => JVal.noConfusion h) (fun h => JVal.noConfusion h)).1 rfl

-- ---------------------------------------------------------------------------
-- Claim C8
-- ---------------------------------------------------------------------------

/-- C8: a non-POST request to either entry point yields status 405 with an
`Allow: POST` header and an error body, with the formatter never invoked and
zero delivery-client network calls. -/
theorem c8_method_not_allowed (dp : String → Option Int) (token chB chF : JVal)
    (script : List HttpResp) (req : Req) (h : req.method ≠ "POST") :
    handlerBackend dp token chB script req =
      ⟨405, some "POST", .obj [("error", .str "Method not allowed")], false, 0⟩ ∧
    handlerFrontend dp token chF script req =
      ⟨405, some "POST", .obj [("error", .str "Method not allowed")], false, 0⟩ ∧
    methodGuard req =
      some ⟨405, some "POST", .obj [("error", .str "Method not allowed")], false, 0⟩ := by
  have hm : methodGuard req =
      some ⟨405, some "POST", .obj [("error", .str "Method not allowed")], false, 0⟩ := by
    simp [methodGuard, h]
  exact ⟨by simp [handlerBackend, hm], by simp [handlerFrontend, hm], hm⟩

/-- Witness for C8 at a concrete GET request. -/
theorem c8_witness :
    handlerBackend dpNone (JVal.str "xoxb-1") (JVal.str "CB") [] ⟨"GET", JVal.obj []⟩ =
      ⟨405, some "POST", .obj [("error", .str "Method not allowed")], false, 0⟩ ∧
    handlerFrontend dpNone (JVal.str "xoxb-1") (JVal.str "CF") [] ⟨"GET", JVal.obj []⟩ =
      ⟨405, some "POST", .obj [("error", .str "Method not allowed")], false, 0⟩ ∧
    methodGuard ⟨"GET", JVal.obj []⟩ =
      some ⟨405, some "POST", .obj [("error", .str "Method not allowed")], false, 0⟩ :=
  c8_method_not_allowed dpNone (JVal.str "xoxb-1") (JVal.str "CB") (JVal.str "CF") []
    ⟨"GET", JVal.obj []⟩ (by decide)

-- ---------------------------------------------------------------------------
-- Claim C9
-- ---------------------------------------------------------------------------

/-- C9: the two `formatSlackMessage` definitions of the module are not
behaviorally equivalent — on the empty object body they return different
messages (already their fallback texts differ:
`🚨 [unknown] ERROR • Sentry Event` versus
`:rotating_light: Sentry ERROR: Sentry Event`). -/
theorem c9_formatters_differ :
    formatSlackMessage1 dpNone (JVal.obj []) ≠ formatSlackMessage2 dpNone (JVal.obj []) := by
  decide

-- ---------------------------------------------------------------------------
-- Claim C3
-- ---------------------------------------------------------------------------

/-- Counterexample for C3 as stated: on the payload with every optional
field absent (the empty object) both formatters DO emit a fields-grid
section — the second always pushes a `Level` entry (`if (level)` with the
defaulted `"error"`), the first unconditionally pushes an `Env` entry — so
the output does not "contain no optional field sections". -/
theorem c3_counterexample :
    Block.sectionFields [fieldEntry "Level" "error"] ∈
      (msgOrEmpty (formatSlackMessage2 dpNone (JVal.obj []))).blocks ∧
    Block.sectionFields [fieldEntry "Env" "unknown"] ∈
      (msgOrEmpty (formatSlackMessage1 dpNone (JVal.obj []))).blocks := by
  constructor <;> decide

/-- C3 (amended): for every payload with every optional field absent (no
`action`, an empty normalized event, not issue-style), the resolved severity
is `"error"`, the title is the placeholder `"Sentry Event"`, and the message
contains no links and no context line — but it does contain one fields
section holding exactly the always-present entry (`Env: unknown` for the
first formatter, `Level: error` for the second). -/
theorem c3_all_absent (dp : String → Option Int) (body : JVal)
    (h1 : optChain body "action" = .undef)
    (h2 : evOf body = .obj [])
    (h3 : issueOf body = .null) :
    formatSlackMessage1 dp body = some
      { text := "🚨 [unknown] ERROR • Sentry Event"
        blocks := [.sectionText "*🚨 [unknown] ERROR • Sentry Event*",
                   .sectionFields [fieldEntry "Env" "unknown"], .divider] } ∧
    formatSlackMessage2 dp body = some
      { text := ":rotating_light: Sentry ERROR: Sentry Event"
        blocks := [.sectionText ("*:rotating_light: Sentry ERROR*" ++ "\n" ++ "*Title:* Sentry Event"),
                   .sectionFields [fieldEntry "Level" "error"], .divider] } ∧
    levelOf2 (evOf body) (issueOf body) = some "error" ∧
    titleOf2 (evOf body) (issueOf body) = .str "Sentry Event" ∧
    envOf1 (evOf body) = .str "unknown" := by
  rw [formatSlackMessage1, formatSlackMessage2, h1, h2, h3]
  refine ⟨rfl, rfl, rfl, rfl, rfl⟩

/-- Witness for C3 at the concrete empty-object payload. -/
theorem c3_witness :
    formatSlackMessage1 dpNone (JVal.obj []) = some
      { text := "🚨 [unknown] ERROR • Sentry Event"
        blocks := [.sectionText "*🚨 [unknown] ERROR • Sentry Event*",
                   .sectionFields [fieldEntry "Env" "unknown"], .divider] } ∧
    formatSlackMessage2 dpNone (JVal.obj []) = some
      { text := ":rotating_light: Sentry ERROR: Sentry Event"
        blocks := [.sectionText ("*:rotating_light: Sentry ERROR*" ++ "\n" ++ "*Title:* Sentry Event"),
                   .sectionFields [fieldEntry "Level" "error"], .divider] } ∧
    levelOf2 (evOf (JVal.obj [])) (issueOf (JVal.obj [])) = some "error" ∧
    titleOf2 (evOf (JVal.obj [])) (issueOf (JVal.obj [])) = .str "Sentry Event" ∧
    envOf1 (evOf (JVal.obj [])) = .str "unknown" :=
  c3_all_absent dpNone (JVal.obj []) rfl rfl rfl

-- ---------------------------------------------------------------------------
-- Claim C6
-- ---------------------------------------------------------------------------

/-- Counterexample for C6 as stated: the empty string is a string-valued
`level` field, yet the displayed level is not its lower-cased form `""` —
being falsy it falls through the chain to the default `"error"`.  Moreover
`"Constructor"` is an unrecognized string whose indicator is not the
`"error"` indicator: `LEVEL_ALIAS["constructor"]` hits the truthy inherited
`Object.prototype.constructor`, not the `||` fallback. -/
theorem c6_counterexample :
    getProp (evOf (JVal.obj [("data", .obj [("event", .obj [("level", .str "")])])])) "level" =
      JVal.str "" ∧
    levelOf2 (evOf (JVal.obj [("data", .obj [("event", .obj [("level", .str "")])])]))
      (issueOf (JVal.obj [("data", .obj [("event", .obj [("level", .str "")])])])) =
      some "error" ∧
    some "error" ≠ some (strToLower "") ∧
    LEVEL_ALIAS.lookup (strToLower "Constructor") = none ∧
    baseEmojiOf (strToLower "Constructor") ≠ ":rotating_light:" := by
  refine ⟨rfl, rfl, ?_, ?_, ?_⟩ <;> decide

/-- C6 (amended): for every payload whose `level` field is a non-empty
string `s`, the resolved level is the lower-cased `s`; the indicator is the
`LEVEL_ALIAS` entry for that level when one exists, and for an unrecognized
level that is not an inherited `Object.prototype` member name it is the
`"error"` indicator `:rotating_light:` (for inherited member names such as
`"constructor"` the truthy inherited value is rendered instead of the
fallback). -/
theorem c6_level_resolution (body : JVal) (s : String)
    (h : getProp (evOf body) "level" = .str s) (hne : s ≠ "") :
    levelOf2 (evOf body) (issueOf body) = some (strToLower s) ∧
    (∀ e, LEVEL_ALIAS.lookup (strToLower s) = some e → baseEmojiOf (strToLower s) = e) ∧
    (LEVEL_ALIAS.lookup (strToLower s) = none → protoProps.lookup (strToLower s) = none →
      baseEmojiOf (strToLower s) = ":rotating_light:") ∧
    (∀ f, LEVEL_ALIAS.lookup (strToLower s) = none → protoProps.lookup (strToLower s) = some f →
      baseEmojiOf (strToLower s) = f) := by
  refine ⟨?_, ?_, ?_, ?_⟩
  · have ht : truthy (JVal.str s) = true := by simp [truthy, hne]
    simp [levelOf2, levelRaw2, jsOrOpt, h, ht, jsToLowerCase]
  · intro e he
    simp [baseEmojiOf, he]
  · intro he hp
    simp [baseEmojiOf, he, hp]
  · intro f he hp
    simp [baseEmojiOf, he, hp]

/-- Witness for C6 at the mixed-case known severity `"FaTaL"`. -/
theorem c6_witness :
    levelOf2 (evOf (JVal.obj [("data", .obj [("event", .obj [("level", .str "FaTaL")])])]))
      (issueOf (JVal.obj [("data", .obj [("event", .obj [("level", .str "FaTaL")])])])) =
      some (strToLower "FaTaL") ∧
    baseEmojiOf (strToLower "FaTaL") = ":fire:" := by
  have h := c6_level_resolution
    (JVal.obj [("data", .obj [("event", .obj [("level", .str "FaTaL")])])]) "FaTaL"
    rfl (by decide)
  exact ⟨h.1, h.2.1 ":fire:" (by decide)⟩

-- ---------------------------------------------------------------------------
-- Claim C1
-- ---------------------------------------------------------------------------

/-- Counterexample for C1 as stated: the body `{data:{event:{level:5}}}` (an
oddly-shaped field) makes BOTH formatters raise — `(5).toLowerCase()` is a
`TypeError` — so `formatSlackMessage` does not return on every input; and on
the empty payload the second formatter resolves `environment` to `undefined`
rather than substituting the `"unknown"` default. -/
theorem c1_counterexample :
    formatSlackMessage1 dpNone
      (JVal.obj [("data", .obj [("event", .obj [("level", .num 5)])])]) = none ∧
    formatSlackMessage2 dpNone
      (JVal.obj [("data", .obj [("event", .obj [("level", .num 5)])])]) = none ∧
    envOf2 (evOf (JVal.obj [])) = some .undef :=
  ⟨rfl, rfl, rfl⟩

/-- C1 (amended): both formatters return a message without raising on every
body whose tag collection has no nullish entries, whose level chains pick a
string, and whose numeric timestamp is in `Date` range; missing fields are
defaulted — level to `"error"` and title to `"Sentry Event"` in both, while
environment defaults to `"unknown"` only in the first formatter (the second
resolves it to `undefined` and omits the field). -/
theorem c1_no_raise (dp : String → Option Int) (hdp : DateParseOk dp) (body : JVal)
    (htags : tagsOk (evOf body) = true)
    (hl1 : levelOk1 (evOf body) = true)
    (hl2 : levelOk2 (evOf body) (issueOf body) = true)
    (hts : timestampOk (evOf body) = true) :
    (formatSlackMessage1 dp body).isSome = true ∧
    (formatSlackMessage2 dp body).isSome = true ∧
    (levelAbsent1 (evOf body) = true → levelRaw1 (evOf body) = .str "error") ∧
    (levelAbsent2 (evOf body) (issueOf body) = true →
      levelOf2 (evOf body) (issueOf body) = some "error") ∧
    (titleAbsent1 (evOf body) = true → rawMessageOf1 (evOf body) = .str "Sentry Event") ∧
    (titleAbsent2 (evOf body) (issueOf body) = true →
      titleOf2 (evOf body) (issueOf body) = .str "Sentry Event") ∧
    (envAbsent1 (evOf body) = true → envOf1 (evOf body) = .str "unknown") ∧
    (envAbsent2 (evOf body) = true → envOf2 (evOf body) = some .undef) := by
  refine ⟨?_, ?_, ?_, ?_, ?_, ?_, ?_, ?_⟩
  · obtain ⟨lv, hlv⟩ := Option.isSome_iff_exists.mp (level1_isSome _ hl1)
    obtain ⟨w, hw⟩ := Option.isSome_iff_exists.mp (toSlackDate_isSome dp hdp _ hts)
    simp [formatSlackMessage1, format1Core, hlv, hw]
  · obtain ⟨lv, hlv⟩ := Option.isSome_iff_exists.mp (levelOf2_isSome _ _ hl2)
    obtain ⟨env, henv⟩ := Option.isSome_iff_exists.mp (envOf2_isSome _ htags)
    obtain ⟨ru, hru⟩ := Option.isSome_iff_exists.mp (reqUrlOf2_isSome _ htags)
    obtain ⟨br, hbr⟩ := Option.isSome_iff_exists.mp (browserOf2_isSome _ htags)
    obtain ⟨os, hos⟩ := Option.isSome_iff_exists.mp (osOf2_isSome _ htags)
    obtain ⟨ub, hub⟩ := Option.isSome_iff_exists.mp (userBitsOf2_isSome _ htags)
    simp [formatSlackMessage2, format2Core, hlv, henv, hru, hbr, hos, hub]
  · intro h
    simp only [levelAbsent1, Bool.and_eq_true, Bool.not_eq_true'] at h
    simp [levelRaw1, jsOrV, h.1, h.2]
  · intro h
    simp only [levelAbsent2, Bool.and_eq_true, Bool.not_eq_true'] at h
    obtain ⟨⟨h1, h2⟩, h3⟩ := h
    rcases he : tagExpr (getProp (evOf body) "tags") "level" with _ | w
    · rw [tagFalsy, he] at h2; simp at h2
    · rw [tagFalsy, he] at h2
      simp only [Bool.not_eq_true'] at h2
      simp [levelOf2, levelRaw2, jsOrOpt, jsOrV, h1, h2, h3, he, jsToLowerCase]
      decide
  · intro h
    simp only [titleAbsent1, Bool.and_eq_true, Bool.not_eq_true'] at h
    obtain ⟨⟨⟨h1, h2⟩, h3⟩, h4⟩ := h
    simp [rawMessageOf1, jsOrV, h1, h2, h3, h4]
  · intro h
    simp only [titleAbsent2, Bool.and_eq_true, Bool.not_eq_true'] at h
    obtain ⟨⟨⟨h1, h2⟩, h3⟩, h4⟩ := h
    simp [titleOf2, jsOrV, h1, h2, h3, h4]
  · intro h
    simp only [envAbsent1, Bool.and_eq_true, Bool.not_eq_true'] at h
    simp [envOf1, jsOrV, h.1, h.2]
  · intro h
    simp only [envAbsent2, Bool.and_eq_true, Bool.not_eq_true'] at h
    obtain ⟨h1, h2⟩ := h
    rcases he : tagExpr (getProp (evOf body) "tags") "environment" with _ | w
    · rw [tagFalsy, he] at h2; simp at h2
    · rw [tagFalsy, he] at h2
      simp only [Bool.not_eq_true'] at h2
      simp [envOf2, jsOrOpt, h1, h2, he]

/-- Witness for C1's amended theorem at the empty-object payload and the
trivial `Date.parse` model. -/
theorem c1_witness :
    (formatSlackMessage1 dpNone (JVal.obj [])).isSome = true ∧
    (formatSlackMessage2 dpNone (JVal.obj [])).isSome = true ∧
    (levelAbsent1 (evOf (JVal.obj [])) = true → levelRaw1 (evOf (JVal.obj [])) = .str "error") ∧
    (levelAbsent2 (evOf (JVal.obj [])) (issueOf (JVal.obj [])) = true →
      levelOf2 (evOf (JVal.obj [])) (issueOf (JVal.obj [])) = some "error") ∧
    (titleAbsent1 (evOf (JVal.obj [])) = true → rawMessageOf1 (evOf (JVal.obj [])) = .str "Sentry Event") ∧
    (titleAbsent2 (evOf (JVal.obj [])) (issueOf (JVal.obj [])) = true →
      titleOf2 (evOf (JVal.obj [])) (issueOf (JVal.obj [])) = .str "Sentry Event") ∧
    (envAbsent1 (evOf (JVal.obj [])) = true → envOf1 (evOf (JVal.obj [])) = .str "unknown") ∧
    (envAbsent2 (evOf (JVal.obj [])) = true → envOf2 (evOf (JVal.obj [])) = some .undef) :=
  c1_no_raise dpNone (fun _ _ h => nomatch h) (JVal.obj []) rfl rfl rfl rfl

-- ---------------------------------------------------------------------------
-- Claim C7
-- ---------------------------------------------------------------------------

/-- Membership in a conditional singleton. -/
theorem mem_ite_sing {α : Type} (a x : α) (c : Prop) [Decidable c] :
    (a ∈ if c then [x] else []) ↔ c ∧ a = x := by
  split <;> simp_all

/-- Two field entries with labels starting in different characters differ. -/
theorem fieldEntry_ne (l1 l2 v1 v2 : String) (c1 c2 : Char) (t1 t2 : List Char)
    (h1 : l1.data = c1 :: t1) (h2 : l2.data = c2 :: t2) (hc : c1 ≠ c2) :
    fieldEntry l1 v1 ≠ fieldEntry l2 v2 := by
  intro h
  apply hc
  have hd := congrArg String.data h
  simp only [fieldEntry, String.data_append, h1, h2, List.append_assoc,
    List.cons_append] at hd
  have h1' : '*' :: c1 :: (t1 ++ (":*".data ++ ("\n".data ++ v1.data))) =
      '*' :: c2 :: (t2 ++ (":*".data ++ ("\n".data ++ v2.data))) := by
    simpa using hd
  injection h1' with _ h2'
  injection h2'

/-- A non-truthy `browser` value leaves no `Browser` entry in the fields
grid: every other entry's label starts with a different character. -/
theorem no_browser_field (level : String) (environment priority status substatus : JVal)
    (eventCount : Option (Option Int)) (userCount firstSeen timestampISO lastSeen browser os : JVal)
    (userBits : String) (firstRel lastRel : JVal) (hb : truthy browser = false) (v : String) :
    fieldEntry "Browser" v ∉ fields2 level environment priority status substatus eventCount
      userCount firstSeen timestampISO lastSeen browser os userBits firstRel lastRel := by
  intro hmem
  rcases eventCount with _ | c <;>
  · simp only [fields2, hb, Bool.false_eq_true, if_false, List.append_nil, List.nil_append,
      List.mem_append, List.mem_singleton, mem_ite_sing] at hmem
    repeat' rcases hmem with hmem | hmem
    all_goals try obtain ⟨-, hmem⟩ := hmem
    all_goals first
      | exact fieldEntry_ne "Browser" "Env" v _ 'B' 'E' _ _ rfl rfl (by decide) hmem
      | exact fieldEntry_ne "Browser" "Priority" v _ 'B' 'P' _ _ rfl rfl (by decide) hmem
      | exact fieldEntry_ne "Browser" "Status" v _ 'B' 'S' _ _ rfl rfl (by decide) hmem
      | exact fieldEntry_ne "Browser" "Level" v _ 'B' 'L' _ _ rfl rfl (by decide) hmem
      | exact fieldEntry_ne "Browser" "Users" v _ 'B' 'U' _ _ rfl rfl (by decide) hmem
      | exact fieldEntry_ne "Browser" "First seen" v _ 'B' 'F' _ _ rfl rfl (by decide) hmem
      | exact fieldEntry_ne "Browser" "Last seen" v _ 'B' 'L' _ _ rfl rfl (by decide) hmem
      | exact fieldEntry_ne "Browser" "OS" v _ 'B' 'O' _ _ rfl rfl (by decide) hmem
      | exact fieldEntry_ne "Browser" "User" v _ 'B' 'U' _ _ rfl rfl (by decide) hmem
      | exact fieldEntry_ne "Browser" "First release" v _ 'B' 'F' _ _ rfl rfl (by decide) hmem
      | exact fieldEntry_ne "Browser" "Last release" v _ 'B' 'L' _ _ rfl rfl (by decide) hmem

/-- A truthy `browser` value always contributes its entry to the fields
grid. -/
theorem browser_field_present (level : String) (environment priority status substatus : JVal)
    (eventCount : Option (Option Int)) (userCount firstSeen timestampISO lastSeen browser os : JVal)
    (userBits : String) (firstRel lastRel : JVal) (hb : truthy browser = true) :
    fieldEntry "Browser" (jsToString browser) ∈ fields2 level environment priority status
      substatus eventCount userCount firstSeen timestampISO lastSeen browser os userBits
      firstRel lastRel := by
  simp [fields2, List.mem_append, hb]

/-- C7: when both the browser context name and version are truthy, the
resolved browser value is their string forms joined by a single space (and a
truthy browser value is always rendered as a `Browser` field); when at most
one of them is truthy, the value falls back to the `browser` /
`browser.name` tags — to `undefined` when neither tag is truthy, in which
case no `Browser` field is rendered — and to the tag value when the
`browser` tag is truthy. -/
theorem c7_browser_field (body : JVal) :
    (truthy (ctxPart (evOf body) "browser" "name") = true →
      truthy (ctxPart (evOf body) "browser" "version") = true →
      browserOf2 (evOf body) = some (.str (jsToString (ctxPart (evOf body) "browser" "name") ++
        " " ++ jsToString (ctxPart (evOf body) "browser" "version")))) ∧
    (∀ w w2, ¬(truthy (ctxPart (evOf body) "browser" "name") = true ∧
        truthy (ctxPart (evOf body) "browser" "version") = true) →
      tagExpr (getProp (evOf body) "tags") "browser" = some w → truthy w = false →
      tagExpr (getProp (evOf body) "tags") "browser.name" = some w2 → truthy w2 = false →
      browserOf2 (evOf body) = some .undef) ∧
    (∀ w, ¬(truthy (ctxPart (evOf body) "browser" "name") = true ∧
        truthy (ctxPart (evOf body) "browser" "version") = true) →
      tagExpr (getProp (evOf body) "tags") "browser" = some w → truthy w = true →
      browserOf2 (evOf body) = some w) ∧
    (∀ level environment priority status substatus eventCount userCount firstSeen timestampISO
        lastSeen browser os userBits firstRel lastRel v, truthy browser = false →
      fieldEntry "Browser" v ∉ fields2 level environment priority status substatus eventCount
        userCount firstSeen timestampISO lastSeen browser os userBits firstRel lastRel) ∧
    (∀ level environment priority status substatus eventCount userCount firstSeen timestampISO
        lastSeen browser os userBits firstRel lastRel, truthy browser = true →
      fieldEntry "Browser" (jsToString browser) ∈ fields2 level environment priority status
        substatus eventCount userCount firstSeen timestampISO lastSeen browser os userBits
        firstRel lastRel) := by
  refine ⟨?_, ?_, ?_, ?_, ?_⟩
  · intro h1 h2
    simp [browserOf2, h1, h2]
  · intro w w2 hnot hw hwf hw2 hw2f
    have hand : (truthy (ctxPart (evOf body) "browser" "name") &&
        truthy (ctxPart (evOf body) "browser" "version")) = false := by
      cases hn : truthy (ctxPart (evOf body) "browser" "name") <;>
        cases hv : truthy (ctxPart (evOf body) "browser" "version") <;> simp_all
    simp [browserOf2, hand, hw, hwf, hw2, hw2f, jsOrOpt]
  · intro w hnot hw hwt
    have hand : (truthy (ctxPart (evOf body) "browser" "name") &&
        truthy (ctxPart (evOf body) "browser" "version")) = false := by
      cases hn : truthy (ctxPart (evOf body) "browser" "name") <;>
        cases hv : truthy (ctxPart (evOf body) "browser" "version") <;> simp_all
    simp [browserOf2, hand, hw, hwt, jsOrOpt]
  · intro level environment priority status substatus eventCount userCount firstSeen
      timestampISO lastSeen browser os userBits firstRel lastRel v hb
    exact no_browser_field level environment priority status substatus eventCount userCount
      firstSeen timestampISO lastSeen browser os userBits firstRel lastRel hb v
  · intro level environment priority status substatus eventCount userCount firstSeen
      timestampISO lastSeen browser os userBits firstRel lastRel hb
    exact browser_field_present level environment priority status substatus eventCount
      userCount firstSeen timestampISO lastSeen browser os userBits firstRel lastRel hb

/-- Witness for C7: a payload carrying browser context name and version
yields the space-joined pair, rendered as a `Browser` field; with a
non-truthy browser value no `Browser` field exists; and an object-shaped tag
entry `{"0":"browser","1":"Firefox"}` (whose `t[0]` reads the `"0"`
property) is matched and used as the fallback value. -/
theorem c7_witness :
    browserOf2 (evOf (JVal.obj [("data", .obj [("event", .obj [("contexts",
      .obj [("browser", .obj [("name", .str "Chrome"), ("version", .str "120")])])])])])) =
      some (.str (jsToString (ctxPart (evOf (JVal.obj [("data", .obj [("event", .obj [("contexts",
        .obj [("browser", .obj [("name", .str "Chrome"), ("version", .str "120")])])])])]))
        "browser" "name") ++ " " ++
        jsToString (ctxPart (evOf (JVal.obj [("data", .obj [("event", .obj [("contexts",
          .obj [("browser", .obj [("name", .str "Chrome"), ("version", .str "120")])])])])]))
          "browser" "version"))) ∧
    fieldEntry "Browser" (jsToString (JVal.str "Chrome 120")) ∈ fields2 "error" (JVal.undef)
      JVal.undef JVal.undef JVal.undef none JVal.undef JVal.undef JVal.undef (JVal.undef)
      (JVal.str "Chrome 120") JVal.undef "" JVal.undef JVal.undef ∧
    fieldEntry "Browser" "x" ∉ fields2 "error" JVal.undef JVal.undef JVal.undef (JVal.undef)
      none JVal.undef JVal.undef JVal.undef JVal.undef JVal.undef JVal.undef "" (JVal.undef)
      JVal.undef ∧
    browserOf2 (evOf (JVal.obj [("data", .obj [("event", .obj [("tags",
      .arr [.obj [("0", .str "browser"), ("1", .str "Firefox")]])])])])) =
      some (JVal.str "Firefox") := by
  refine ⟨?_, ?_, ?_, ?_⟩
  · exact (c7_browser_field (JVal.obj [("data", .obj [("event", .obj [("contexts",
      .obj [("browser", .obj [("name", .str "Chrome"), ("version", .str "120")])])])])])).1
      rfl rfl
  · exact (c7_browser_field (JVal.obj [])).2.2.2.2 "error" JVal.undef JVal.undef (JVal.undef)
      JVal.undef none JVal.undef JVal.undef JVal.undef JVal.undef (JVal.str "Chrome 120")
      JVal.undef "" JVal.undef JVal.undef rfl
  · exact (c7_browser_field (JVal.obj [])).2.2.2.1 "error" JVal.undef JVal.undef (JVal.undef)
      JVal.undef none JVal.undef JVal.undef JVal.undef JVal.undef JVal.undef JVal.undef ""
      JVal.undef JVal.undef "x" rfl
  · exact (c7_browser_field (JVal.obj [("data", .obj [("event", .obj [("tags",
      .arr [.obj [("0", .str "browser"), ("1", .str "Firefox")]])])])])).2.2.1
      (JVal.str "Firefox") (by decide) rfl rfl

-- ---------------------------------------------------------------------------
-- Claim C10
-- ---------------------------------------------------------------------------

/-- Appending to a non-empty string stays non-empty. -/
theorem append_ne_empty_left (a b : String) (ha : a ≠ "") : a ++ b ≠ "" := by
  intro h
  apply ha
  have hl := congrArg String.length h
  rw [String.length_append] at hl
  have h0 : a.length = 0 := by
    have := String.length_empty
    omega
  have h0' : a.data.length = 0 := h0
  exact String.ext (List.length_eq_zero.mp h0')

/-- Values delivered by a lookup over a table of non-empty values are
non-empty. -/
theorem lookup_val_ne_empty (l : String) (tbl : List (String × String))
    (htbl : ∀ p ∈ tbl, p.2 ≠ "") : ∀ v, tbl.lookup l = some v → v ≠ "" := by
  induction tbl with
  | nil => intro v h; simp [List.lookup] at h
  | cons p ps ih =>
    obtain ⟨k, w⟩ := p
    intro v h
    rw [List.lookup] at h
    split at h
    · cases h
      exact htbl ⟨k, w⟩ (List.mem_cons_self _ _)
    · exact ih (fun q hq => htbl q (List.mem_cons_of_mem _ hq)) v h

/-- The level emoji of the first formatter is never empty (table entries,
inherited prototype members and the fallback are all non-empty). -/
theorem levelEmoji1_ne_empty (l : String) : levelEmoji1 l ≠ "" := by
  unfold levelEmoji1
  rcases h1 : LEVEL_EMOJI.lookup l with _ | e
  · rcases h2 : protoProps.lookup l with _ | f
    · decide
    · exact lookup_val_ne_empty l protoProps (by decide) f h2
  · exact lookup_val_ne_empty l LEVEL_EMOJI (by decide) e h1

/-- The base emoji of the second formatter is never empty. -/
theorem baseEmojiOf_ne_empty (l : String) : baseEmojiOf l ≠ "" := by
  unfold baseEmojiOf
  rcases h1 : LEVEL_ALIAS.lookup l with _ | e
  · rcases h2 : protoProps.lookup l with _ | f
    · decide
    · exact lookup_val_ne_empty l protoProps (by decide) f h2
  · exact lookup_val_ne_empty l LEVEL_ALIAS (by decide) e h1

/-- Distribution of `dividerCount` over append. -/
theorem dividerCount_append (a b : List Block) :
    dividerCount (a ++ b) = dividerCount a + dividerCount b :=
  List.countP_append _ a b

/-- Conditional fields sections carry no divider. -/
theorem dividerCount_sectionFields_ite (c : Prop) [Decidable c] (fs : List String) :
    dividerCount (if c then [Block.sectionFields fs] else []) = 0 := by
  split <;> rfl

/-- Conditional context blocks carry no divider. -/
theorem dividerCount_context_ite (c : Prop) [Decidable c] (s : String) :
    dividerCount (if c then [Block.context s] else []) = 0 := by
  split <;> rfl

/-- Conditional actions blocks carry no divider. -/
theorem dividerCount_actions_ite (c : Prop) [Decidable c] (bs : List (String × String)) :
    dividerCount (if c then [Block.actions bs] else []) = 0 := by
  split <;> rfl

/-- C10: whenever either formatter returns, the block list starts with a
`section` block carrying the header text, contains exactly one divider, and
the plain-text fallback is non-empty. -/
theorem c10_blocks_invariant (dp : String → Option Int) (body : JVal) :
    (∀ m, formatSlackMessage1 dp body = some m →
      (∃ lvl, jsToLowerCase (levelRaw1 (evOf body)) = some lvl ∧
        m.blocks.head? = some (.sectionText (header1 (optChain body "action") (evOf body) lvl))) ∧
      dividerCount m.blocks = 1 ∧ m.text ≠ "") ∧
    (∀ m, formatSlackMessage2 dp body = some m →
      (∃ lvl, levelOf2 (evOf body) (issueOf body) = some lvl ∧
        m.blocks.head? = some (.sectionText (header2 (evOf body) (issueOf body) lvl))) ∧
      dividerCount m.blocks = 1 ∧ m.text ≠ "") := by
  constructor
  · intro m hm
    simp only [formatSlackMessage1, format1Core, bind, Option.bind_eq_some, Option.pure_def,
      Option.some.injEq] at hm
    obtain ⟨lvl, hlvl, w, hw, hren⟩ := hm
    subst hren
    refine ⟨⟨lvl, hlvl, rfl⟩, ?_, ?_⟩
    · simp only [render1, dividerCount_append, dividerCount_sectionFields_ite,
        dividerCount_context_ite, dividerCount_actions_ite]
      rfl
    · exact append_ne_empty_left _ _
        (append_ne_empty_left _ _ (levelEmoji1_ne_empty lvl))
  · intro m hm
    simp only [formatSlackMessage2, format2Core, bind, Option.bind_eq_some, Option.pure_def,
      Option.some.injEq] at hm
    obtain ⟨lvl, hlvl, env, henv, ru, hru, br, hbr, os, hos, ub, hub, hren⟩ := hm
    subst hren
    refine ⟨⟨lvl, hlvl, rfl⟩, ?_, ?_⟩
    · simp only [render2, dividerCount_append, dividerCount_sectionFields_ite,
        dividerCount_context_ite, dividerCount_actions_ite]
      rfl
    · exact append_ne_empty_left _ _ (append_ne_empty_left _ _
        (append_ne_empty_left _ _ (append_ne_empty_left _ _ (baseEmojiOf_ne_empty lvl))))

/-- Witness for C10 at the empty payload for both formatters. -/
theorem c10_witness :
    ((∃ lvl, jsToLowerCase (levelRaw1 (evOf (JVal.obj []))) = some lvl ∧
      (msgOrEmpty (formatSlackMessage1 dpNone (JVal.obj []))).blocks.head? =
        some (.sectionText (header1 (optChain (JVal.obj []) "action") (evOf (JVal.obj [])) lvl))) ∧
      dividerCount (msgOrEmpty (formatSlackMessage1 dpNone (JVal.obj []))).blocks = 1 ∧
      (msgOrEmpty (formatSlackMessage1 dpNone (JVal.obj []))).text ≠ "") ∧
    ((∃ lvl, levelOf2 (evOf (JVal.obj [])) (issueOf (JVal.obj [])) = some lvl ∧
      (msgOrEmpty (formatSlackMessage2 dpNone (JVal.obj []))).blocks.head? =
        some (.sectionText (header2 (evOf (JVal.obj [])) (issueOf (JVal.obj [])) lvl))) ∧
      dividerCount (msgOrEmpty (formatSlackMessage2 dpNone (JVal.obj []))).blocks = 1 ∧
      (msgOrEmpty (formatSlackMessage2 dpNone (JVal.obj []))).text ≠ "") :=
  ⟨(c10_blocks_invariant dpNone (JVal.obj [])).1
      (msgOrEmpty (formatSlackMessage1 dpNone (JVal.obj []))) rfl,
   (c10_blocks_invariant dpNone (JVal.obj [])).2
      (msgOrEmpty (formatSlackMessage2 dpNone (JVal.obj []))) rfl⟩
